import Mathlib

/-
Verification development for the Galaxy Navigation Engine of
src/src/App.jsx (citation-galaxy-frontend).

The engine lives inside a single React effect.  Its mutable locals
(stars, galaxyLayers, opacityTransitions, selectedStar, isDrilling,
isTransitioning, cameraTransition, camera.position.z, controls.target.z,
currentDepthRef, navigationStackRef, status) are embedded as fields of an
explicit state record NavState.  JavaScript objects referenced from
several places (star meshes, shared by the scene list, the layer lists and
the opacity transitions) are modelled as a heap, a total function from
numeric identifiers to Star records; a fresh identifier is drawn from
nextId at each allocation, which models object identity.

Floating point numbers are embedded as exact rationals.  The only
non-deterministic or transcendental parts of the source, namely the
Math.random / trigonometry direction sampling inside createGalaxyLayer
and the Math.log10 size metric inside normalizeWorkToPaper, are abstracted
as oracle functions passed explicitly; every claim below is independent of
their values.  Network effects are embedded by passing the awaited result
of a request as an explicit argument (the Except value of a drill
resolution, the detail lookup oracle of fetchReferencePapers).

The two async flows drillIntoReferences and navigateBack each have a
single suspension point (await wait(PRE_ZOOM_MS) composed with the awaited
fetch).  Each flow is therefore split into its synchronous prefix
(drillStart / backStart: the guard and everything before the await) and
its synchronous suffix (drillResolve / backResolve: everything after),
with the locals captured across the await stored in the Phase value; the
render loop and click handlers may interleave between the two halves,
exactly as in the event loop.  Teardown (the mounted flag) is outside the
scope of the claims and is not modelled: all events below happen while the
component is mounted.
-/

namespace CitationGalaxy

/-- Constants of src/src/App.jsx, lines 25-35. -/
def DEPTH_STEP : Int := 200

def CAMERA_TRANSITION_MS : ℚ := 800

def CAMERA_LAYER_OFFSET : Int := 120

def REFERENCE_LIMIT : Nat := 35

def LAYER_FADE_MS : ℚ := 420

def PRE_ZOOM_MS : ℚ := 220

def MIN_STAR_SIZE : ℚ := 1/2

def MAX_STAR_SIZE : ℚ := 6

/-- THREE.MathUtils.clamp. -/
def clampQ (v lo hi : ℚ) : ℚ := max lo (min v hi)

/-- THREE.MathUtils.lerp: x + (y - x) * t. -/
def lerpQ (x y t : ℚ) : ℚ := x + (y - x) * t

/-- easeInOutCubic, App.jsx lines 41-47. -/
def easeInOutCubic (value : ℚ) : ℚ :=
  if value < 1/2 then 4 * value * value * value
  else 1 - (-2 * value + 2)^3 / 2

/-- JavaScript truthiness of a nullable string: null and the empty string
are falsy.  Used to embed expressions of the shape a or-else b. -/
def jsTruthy (s : Option String) : Option String :=
  match s with
  | some v => if v = "" then none else some v
  | none => none

/-- Paper payload as produced by normalizeWorkToPaper / the papers API.
Numeric fields are embedded as exact integers and rationals. -/
structure Paper where
  title : String
  authors : List String
  publication_year : Option Int
  cited_by_count : Int
  doi : Option String
  primary_topic : Option String
  size : ℚ
deriving DecidableEq, Inhabited

/-- The expression paper.doi or-else paper.title or-else null, used as the
layer / snapshot identifier on both sides of a drill (App.jsx 522, 554). -/
def paperKey (p : Paper) : Option String :=
  match jsTruthy p.doi with
  | some d => some d
  | none => jsTruthy (some p.title)

/-- FIELD_STAR_COLORS, App.jsx lines 17-24; colors as hex numbers. -/
def FIELD_STAR_COLORS : List (String × Nat) :=
  [("physics", 0x5da9e9), ("mathematics", 0x72d6c9),
   ("computer science", 0x6bcb77), ("neuroscience", 0xf4a261),
   ("economics", 0x2a9d8f), ("philosophy", 0x9d4edd)]

/-- getFieldStarColor, App.jsx lines 37-39 (default: physics). -/
def getFieldStarColor (field : String) : Nat :=
  match FIELD_STAR_COLORS.lookup field with
  | some c => c
  | none => 0x5da9e9

/-- One THREE.Mesh star: current material appearance, position, and the
base appearance recorded in userData (App.jsx 388-393). -/
structure Star where
  color : Nat
  emissive : Nat
  emissiveIntensity : ℚ
  opacity : ℚ
  posX : ℚ
  posY : ℚ
  posZ : ℚ
  radius : ℚ
  baseColor : Nat
  baseEmissiveIntensity : ℚ
  paper : Paper
deriving DecidableEq, Inhabited

/-- One record of layer.generatedStars (App.jsx 397-402). -/
structure GenStar where
  x : ℚ
  y : ℚ
  z : ℚ
  radius : ℚ
deriving DecidableEq, Inhabited

/-- One galaxy layer (App.jsx 406-412); stars are held by identifier into
the star heap. -/
structure Layer where
  paperId : Option String
  depth : Int
  depthLevel : ℚ
  starIds : List Nat
  generatedStars : List GenStar
deriving DecidableEq, Inhabited

/-- One navigation snapshot (snapshotCurrentState, App.jsx 434-447).  Only
the z components of the cloned camera vectors are ever read back. -/
structure Snapshot where
  paperId : Option String
  depth : Int
  depthLevel : ℚ
  cameraPositionZ : ℚ
  cameraTargetZ : ℚ
  starPositions : List GenStar
deriving DecidableEq, Inhabited

/-- The single camera transition record (App.jsx 173-181). -/
structure CameraTransition where
  active : Bool
  startMs : ℚ
  durationMs : ℚ
  fromCameraZ : ℚ
  toCameraZ : ℚ
  fromTargetZ : ℚ
  toTargetZ : ℚ
deriving DecidableEq, Inhabited

/-- One entry of the opacityTransitions array (App.jsx 223-229). -/
structure OpacityTransition where
  starIds : List Nat
  fromOpacities : List ℚ
  toOpacity : ℚ
  startMs : ℚ
  durationMs : ℚ
deriving DecidableEq, Inhabited

/-- Continuation state of the two async flows across their await point:
the locals captured before await wait(PRE_ZOOM_MS) in drillIntoReferences
(previousState, activeLayer, paper) and in navigateBack (currentLayer,
restoreState). -/
inductive Phase where
  | idle : Phase
  | drillPending (previousState : Snapshot) (activeLayer : Option Layer)
      (paper : Paper) : Phase
  | backPending (currentLayer : Option Layer) (restoreState : Snapshot) : Phase
deriving DecidableEq, Inhabited

/-- True exactly on the drillPending continuation. -/
def Phase.isDrillPendingB : Phase → Bool
  | .drillPending _ _ _ => true
  | _ => false

/-- The mutable state of the effect body (App.jsx 93-181), plus the
continuation phase of the at-most-one in-flight async flow. -/
@[ext] structure NavState where
  nextId : Nat
  starHeap : Nat → Star
  stars : List Nat
  galaxyLayers : List Layer
  opacityTransitions : List OpacityTransition
  selectedStar : Option Nat
  selectedPaper : Option Paper
  isDrilling : Bool
  isTransitioning : Bool
  cameraTransition : CameraTransition
  cameraZ : ℚ
  targetZ : ℚ
  currentDepth : Int
  navigationStack : List Snapshot
  statusLoading : Bool
  statusError : Option String
  phase : Phase
  selectedField : String

/-- startCameraTransition, App.jsx 183-191: the event argument now embeds
the performance.now() call. -/
def startCameraTransition (s : NavState) (toCameraZ toTargetZ durationMs now : ℚ) :
    NavState :=
  { s with cameraTransition :=
      { active := true
        startMs := now
        durationMs := durationMs
        fromCameraZ := s.cameraZ
        toCameraZ := toCameraZ
        fromTargetZ := s.targetZ
        toTargetZ := toTargetZ } }

/-- updateCameraTransition, App.jsx 193-216. -/
def updateCameraTransition (nowMs : ℚ) (s : NavState) : NavState :=
  if s.cameraTransition.active = false then s
  else
    let elapsed := nowMs - s.cameraTransition.startMs
    let progress := clampQ (elapsed / s.cameraTransition.durationMs) 0 1
    let eased := easeInOutCubic progress
    let s1 := { s with
      cameraZ := lerpQ s.cameraTransition.fromCameraZ s.cameraTransition.toCameraZ eased
      targetZ := lerpQ s.cameraTransition.fromTargetZ s.cameraTransition.toTargetZ eased }
    if 1 ≤ progress then
      { s1 with cameraTransition := { s1.cameraTransition with active := false } }
    else s1

/-- queueLayerOpacityTransition, App.jsx 218-230.  The falsy-layer guard
is embedded by the Option; the captured fromOpacities read the current
material opacity of every star of the layer. -/
def queueLayerOpacityTransition (s : NavState) (layer : Option Layer)
    (toOpacity durationMs now : ℚ) : NavState :=
  match layer with
  | none => s
  | some l =>
    if l.starIds = [] then s
    else
      { s with opacityTransitions := s.opacityTransitions ++
          [{ starIds := l.starIds
             fromOpacities := l.starIds.map (fun i => (s.starHeap i).opacity)
             toOpacity := clampQ toOpacity 0 1
             startMs := now
             durationMs := durationMs }] }

/-- Write the material opacity of the star with identifier i. -/
def setStarOpacity (heap : Nat → Star) (i : Nat) (v : ℚ) : Nat → Star :=
  fun j => if j = i then { heap i with opacity := v } else heap j

/-- Apply a list of opacity writes left to right (a forEach loop). -/
def applyOpacityWrites (writes : List (Nat × ℚ)) (heap : Nat → Star) : Nat → Star :=
  writes.foldl (fun h p => setStarOpacity h p.1 p.2) heap

/-- Clamped progress of one opacity transition at time nowMs
(App.jsx 235-239). -/
def transitionProgress (nowMs : ℚ) (t : OpacityTransition) : ℚ :=
  clampQ ((nowMs - t.startMs) / t.durationMs) 0 1

/-- The per-star writes performed by one opacity transition during one
tick (App.jsx 242-245): star i gets lerp(fromOpacities i, toOpacity,
eased). -/
def transitionWrites (nowMs : ℚ) (t : OpacityTransition) : List (Nat × ℚ) :=
  (t.starIds.zip t.fromOpacities).map
    (fun p => (p.1, lerpQ p.2 t.toOpacity (easeInOutCubic (transitionProgress nowMs t))))

/-- Heap effect of one opacity transition during one tick. -/
def applyOpacityTransition (nowMs : ℚ) (t : OpacityTransition)
    (heap : Nat → Star) : Nat → Star :=
  applyOpacityWrites (transitionWrites nowMs t) heap

/-- updateOpacityTransitions, App.jsx 232-251, as a recursion equivalent
to its descending-index loop: the loop visits the transition at the
largest index first and splices a finished transition at the visited
index, which only renumbers already-visited elements; so the recursion
first processes the tail (the larger indices), then lets the head write
(the index-0 writes happen last and win on shared stars), and keeps the
head in front of the surviving tail exactly when it is unfinished. -/
def updateOpacityAux (nowMs : ℚ) (ts : List OpacityTransition)
    (heap : Nat → Star) : List OpacityTransition × (Nat → Star) :=
  match ts with
  | [] => ([], heap)
  | t :: rest =>
    let pr := updateOpacityAux nowMs rest heap
    let heap2 := applyOpacityTransition nowMs t pr.2
    (if 1 ≤ transitionProgress nowMs t then pr.1 else t :: pr.1, heap2)

/-- updateOpacityTransitions lifted to the state. -/
def updateOpacityTransitions (nowMs : ℚ) (s : NavState) : NavState :=
  { s with
    opacityTransitions := (updateOpacityAux nowMs s.opacityTransitions s.starHeap).1
    starHeap := (updateOpacityAux nowMs s.opacityTransitions s.starHeap).2 }

/-- One iteration of the render loop (App.jsx 715-722): camera first,
then opacities. -/
def tickFrame (nowMs : ℚ) (s : NavState) : NavState :=
  updateOpacityTransitions nowMs (updateCameraTransition nowMs s)

/-- resetStarAppearance, App.jsx 253-262. -/
def resetStarAppearance (s : NavState) (star : Option Nat) : NavState :=
  match star with
  | none => s
  | some i =>
    { s with starHeap := fun j =>
        if j = i then
          { s.starHeap i with
            color := (s.starHeap i).baseColor
            emissive := (s.starHeap i).baseColor
            emissiveIntensity := (s.starHeap i).baseEmissiveIntensity }
        else s.starHeap j }

/-- applyStarSelection, App.jsx 264-282.  The highlight writes only the
emissive color and the emissive intensity (base + 0.6); the diffuse color
is left as is. -/
def applyStarSelection (s : NavState) (i : Nat) : NavState :=
  if s.selectedStar = some i then
    { s with selectedPaper := some ((s.starHeap i).paper) }
  else
    let s1 := resetStarAppearance s s.selectedStar
    { s1 with
      selectedStar := some i
      starHeap := fun j =>
        if j = i then
          { s1.starHeap i with
            emissive := 0xb8d9ff
            emissiveIntensity := (s1.starHeap i).baseEmissiveIntensity + 3/5 }
        else s1.starHeap j
      selectedPaper := some ((s1.starHeap i).paper) }

/-- clearSelection, App.jsx 284-290. -/
def clearSelection (s : NavState) : NavState :=
  let s1 := resetStarAppearance s s.selectedStar
  { s1 with selectedStar := none, selectedPaper := none }

/-- Minimum of a rational list with the JavaScript empty default 0
(App.jsx 333, 336). -/
def listMinQ : List ℚ → ℚ
  | [] => 0
  | h :: t => t.foldl min h

/-- Maximum of a rational list with the JavaScript empty default 0
(App.jsx 334, 337). -/
def listMaxQ : List ℚ → ℚ
  | [] => 0
  | h :: t => t.foldl max h

/-- Per-layer constants of createGalaxyLayer (App.jsx 327-345) together
with the direction oracle abstracting the Math.random / trigonometric
sampling of star directions: dir n is the unit direction
(sinPhi*cosTheta, cosPhi, sinPhi*sinTheta) drawn for the n-th star. -/
structure LayerBuildCtx where
  field : String
  minLog : ℚ
  logRange : ℚ
  minCitation : ℚ
  citationRange : ℚ
  spreadScale : ℚ
  sizeScale : ℚ
  layerIndexQ : ℚ
  depth : Int
  initialOpacity : ℚ
  dir : Nat → ℚ × ℚ × ℚ

/-- Body of the papers.forEach of createGalaxyLayer (App.jsx 347-404):
the deterministic appearance math for one paper.  In this embedding every
payload number is a finite rational, so the Number.isFinite fallbacks of
the source never fire and safeLog / safeCitation are the fields
themselves. -/
def makeStar (c : LayerBuildCtx) (n : Nat) (paper : Paper) : Star × GenStar :=
  let safeLog := paper.size
  let normalized := if c.logRange > 0 then (safeLog - c.minLog) / c.logRange else 1/2
  let clampedNormalized := clampQ normalized 0 1
  let radius :=
    clampQ (MIN_STAR_SIZE + clampedNormalized * (MAX_STAR_SIZE - MIN_STAR_SIZE))
      MIN_STAR_SIZE MAX_STAR_SIZE * c.sizeScale
  let safeCitation := (paper.cited_by_count : ℚ)
  let citationNormalized :=
    if c.citationRange > 0 then (safeCitation - c.minCitation) / c.citationRange else 1/2
  let clampedCitation := clampQ citationNormalized 0 1
  let orbitalRadius := 50 - clampedCitation * (50 - 5)
  let d := c.dir n
  let x := orbitalRadius * d.1 * c.spreadScale
  let y := orbitalRadius * d.2.1 * c.spreadScale
  let z := orbitalRadius * d.2.2 + (c.depth : ℚ)
  let baseColor := getFieldStarColor c.field
  let emissiveBase := lerpQ (13/10) (41/20) clampedNormalized
  let emissiveIntensity :=
    clampQ (emissiveBase + min (c.layerIndexQ * (8/100)) (45/100)) (12/10) (24/10)
  ({ color := baseColor
     emissive := baseColor
     emissiveIntensity := emissiveIntensity
     opacity := c.initialOpacity
     posX := x
     posY := y
     posZ := z
     radius := radius
     baseColor := baseColor
     baseEmissiveIntensity := emissiveIntensity
     paper := paper },
   { x := x, y := y, z := z, radius := radius })

/-- The papers.forEach of createGalaxyLayer, star construction part
(App.jsx 347-393): the list of mesh / generatedStars pairs, one per
paper, with n the running star index feeding the direction oracle. -/
def layerStarList (c : LayerBuildCtx) (papers : List Paper) (n : Nat) :
    List (Star × GenStar) :=
  match papers with
  | [] => []
  | p :: rest => makeStar c n p :: layerStarList c rest (n + 1)

/-- Store a star object under a fresh reference. -/
def writeStar (heap : Nat → Star) (i : Nat) (st : Star) : Nat → Star :=
  fun j => if j = i then st else heap j

/-- Store a list of star objects under their references. -/
def applyStarWrites (ws : List (Nat × Star)) (heap : Nat → Star) : Nat → Star :=
  ws.foldl (fun h p => writeStar h p.1 p.2) heap

/-- createGalaxyLayer, App.jsx 325-415.  The forEach allocation loop,
which pushes every constructed star onto the global scene list and the
layer list one at a time, is embedded by its net effect: consecutive
fresh identifiers starting at nextId, all heap writes applied in order,
and both lists extended by the identifiers in order; no intermediate
state of the loop is observable in the source.  The depth is an integer
multiple of DEPTH_STEP on every call path, so the float layerIndex of the
source equals the natural number used here as the exponent of
spreadScale. -/
def createGalaxyLayer (s : NavState) (papers : List Paper) (depth : Int)
    (paperId : Option String) (initialOpacity : ℚ) (dir : Nat → ℚ × ℚ × ℚ) :
    NavState × Layer :=
  let paperLogs := papers.map (fun p => p.size)
  let citationValues := papers.map (fun p => (p.cited_by_count : ℚ))
  let minLog := listMinQ paperLogs
  let maxLog := listMaxQ paperLogs
  let minCitation := listMinQ citationValues
  let maxCitation := listMaxQ citationValues
  let layerIndexN : Nat := depth.natAbs / DEPTH_STEP.natAbs
  let c : LayerBuildCtx :=
    { field := s.selectedField
      minLog := minLog
      logRange := maxLog - minLog
      minCitation := minCitation
      citationRange := maxCitation - minCitation
      spreadScale := (17/20 : ℚ) ^ layerIndexN
      sizeScale := 1 + min ((layerIndexN : ℚ) * (6/100)) (1/2)
      layerIndexQ := (layerIndexN : ℚ)
      depth := depth
      initialOpacity := initialOpacity
      dir := dir }
  let entries := layerStarList c papers 0
  let ids := (List.range entries.length).map (fun k => s.nextId + k)
  let layer : Layer :=
    { paperId := paperId
      depth := depth
      depthLevel := |(depth : ℚ) / (DEPTH_STEP : ℚ)|
      starIds := ids
      generatedStars := entries.map (fun e => e.2) }
  ({ s with
      nextId := s.nextId + entries.length
      starHeap := applyStarWrites (ids.zip (entries.map (fun e => e.1))) s.starHeap
      stars := s.stars ++ ids
      galaxyLayers := s.galaxyLayers ++ [layer] },
   layer)

/-- removeGalaxyLayer, App.jsx 417-432: each star of the layer is spliced
out of the global scene list (first occurrence, as indexOf/splice does)
and its GPU resources disposed; disposal does not unreference the object,
so the heap is untouched. -/
def removeGalaxyLayer (s : NavState) (layer : Option Layer) : NavState :=
  match layer with
  | none => s
  | some l => { s with stars := l.starIds.foldl (fun lst i => lst.erase i) s.stars }

/-- snapshotCurrentState, App.jsx 434-447. -/
def snapshotCurrentState (s : NavState) (paperId : Option String) : Snapshot :=
  let activeLayer := s.galaxyLayers.getLast?
  { paperId :=
      match jsTruthy paperId with
      | some v => some v
      | none =>
        match activeLayer with
        | some l => jsTruthy l.paperId
        | none => none
    depth := s.currentDepth
    depthLevel := |(s.currentDepth : ℚ) / (DEPTH_STEP : ℚ)|
    cameraPositionZ := s.cameraZ
    cameraTargetZ := s.targetZ
    starPositions :=
      match activeLayer with
      | some l => l.generatedStars
      | none => [] }

/-- OpenAlex work payload consumed by normalizeWorkToPaper (App.jsx
49-70).  A none marks a missing / non-finite / non-string field; an
authorships entry is the nullable author display name; a concepts entry is
the nullable concept display name. -/
structure Work where
  display_name : Option String
  authorships : Option (List (Option String))
  publication_year : Option Int
  cited_by_count : Option Int
  doi : Option String
  primary_topic : Option String
  concepts : Option (List (Option String))
deriving DecidableEq, Inhabited

/-- The doi.org host strip of normalizeWorkToPaper, App.jsx 51-53: the
replace of the case-insensitive anchored pattern for an http or https
doi.org host by the empty string. -/
def dropDoiHost (s : String) : String :=
  if s.toLower.startsWith "https://doi.org/" then s.drop 16
  else if s.toLower.startsWith "http://doi.org/" then s.drop 15
  else s

/-- normalizeWorkToPaper, App.jsx 49-70.  The size metric
Number(Math.log10(c + 1).toFixed(4)) is transcendental and is abstracted
as the oracle sizeMetric applied to the cited-by count. -/
def normalizeWorkToPaper (sizeMetric : Int → ℚ) (w : Work) : Paper :=
  let citedByCount : Int :=
    match w.cited_by_count with
    | some c => c
    | none => 0
  { title :=
      match jsTruthy w.display_name with
      | some t => t
      | none => "Untitled"
    authors :=
      match w.authorships with
      | some l => (l.filterMap (fun a => jsTruthy a)).take 3
      | none => []
    publication_year :=
      match w.publication_year with
      | some y => if y = 0 then none else some y
      | none => none
    cited_by_count := citedByCount
    doi :=
      match w.doi with
      | some d => jsTruthy (some (dropDoiHost d).trim)
      | none => none
    primary_topic :=
      match jsTruthy w.primary_topic with
      | some t => some t
      | none =>
        match w.concepts with
        | some cs =>
          match cs.head? with
          | some c => jsTruthy c
          | none => none
        | none => none
    size := sizeMetric citedByCount }

/-- Match of the anchored case-insensitive pattern of one uppercase or
lowercase W followed by one or more trailing digits (App.jsx 476): the
maximal nonempty trailing digit run together with the letter just before
it, when that letter is a W. -/
def extractReferenceId (url : String) : Option String :=
  let rev := url.data.reverse
  let digits := rev.takeWhile (fun c => c.isDigit)
  match rev.dropWhile (fun c => c.isDigit) with
  | c :: _ =>
    if (c = 'W' ∨ c = 'w') ∧ digits ≠ [] then
      some (String.mk (c :: digits.reverse))
    else none
  | [] => none

/-- Reference-id resolution of fetchReferencePapers, App.jsx 469-481: the
referenced_works entries (none marks a non-string entry) are mapped
through the trailing-id match, nulls are filtered, and the list is sliced
to REFERENCE_LIMIT.  A none argument marks a missing results row or a
non-array referenced_works. -/
def resolvedReferenceIds (referencedWorks : Option (List (Option String))) :
    List String :=
  match referencedWorks with
  | some urls =>
    ((urls.map (fun u =>
        match u with
        | none => none
        | some v => extractReferenceId v)).filterMap id).take REFERENCE_LIMIT
  | none => []

/-- fetchReferencePapers, App.jsx 449-508, after the work lookup has
resolved: referencedWorks is the referenced_works of the looked-up work,
and detail is the per-reference lookup, returning none on a non-ok
response (the null that the source filters out) and the payload otherwise.
A rejected lookup propagates out of the whole drill instead and is
embedded by the error outcome of drillResolve below. -/
def fetchReferencePapers (paper : Paper)
    (referencedWorks : Option (List (Option String)))
    (detail : String → Option Work) (sizeMetric : Int → ℚ) : List Paper :=
  match jsTruthy paper.doi with
  | none => []
  | some _ =>
    let referenceIds := resolvedReferenceIds referencedWorks
    if referenceIds = [] then []
    else
      (((referenceIds.map detail).filterMap id).map
          (normalizeWorkToPaper sizeMetric)).mergeSort
        (fun a b => decide (b.cited_by_count ≤ a.cited_by_count))

/-- Guards plus synchronous prefix of drillIntoReferences (App.jsx
510-531): lock acquisition, loading status, snapshot of the pre-drill
state, start of the reference request and of the pre-zoom camera nudge.
The awaited remainder is drillResolve. -/
def drillStart (s : NavState) (now : ℚ) (paper : Option Paper) : NavState :=
  match paper with
  | none => s
  | some p =>
    if s.isDrilling || s.isTransitioning then s
    else
      let s1 := { s with
        isDrilling := true
        isTransitioning := true
        statusLoading := true
        statusError := none }
      let activeLayer := s1.galaxyLayers.getLast?
      let previousState := snapshotCurrentState s1 (paperKey p)
      let s2 := startCameraTransition s1 (s1.cameraZ - 24) (s1.targetZ - 16)
        PRE_ZOOM_MS now
      { s2 with phase := .drillPending previousState activeLayer p }

/-- Catch branch of drillIntoReferences (App.jsx 566-581): camera revert
toward the pre-drill snapshot over the pre-zoom duration, error surfaced
in status, and the finally release of both lock booleans. -/
def drillFail (s : NavState) (now : ℚ) (prev : Snapshot) (msg : String) : NavState :=
  let s1 := startCameraTransition s prev.cameraPositionZ prev.cameraTargetZ
    PRE_ZOOM_MS now
  { s1 with
    statusLoading := false
    statusError := some msg
    isDrilling := false
    isTransitioning := false
    phase := .idle }

/-- Remainder of drillIntoReferences after its await point (App.jsx
533-581).  The outcome is the settled reference request: an error value
for a rejected fetch (with the JavaScript fallback message for a falsy
error message), and the reference paper list otherwise.  A zero-result
list throws and lands in the same catch branch as a rejection, with the
no-references message. -/
def drillResolve (s : NavState) (now : ℚ) (outcome : Except String (List Paper))
    (dir : Nat → ℚ × ℚ × ℚ) : NavState :=
  match s.phase with
  | .drillPending prev activeLayer p =>
    match outcome with
    | .error msg =>
      drillFail s now prev (if msg = "" then "Failed to fetch references" else msg)
    | .ok referencePapers =>
      if referencePapers = [] then
        drillFail s now prev "No references found for this paper"
      else
        let s1 := { s with navigationStack := s.navigationStack ++ [prev] }
        let s2 := queueLayerOpacityTransition s1 activeLayer (24/100) LAYER_FADE_MS now
        let nextDepth := s2.currentDepth - DEPTH_STEP
        let s3 := { s2 with currentDepth := nextDepth }
        let pr := createGalaxyLayer s3 referencePapers nextDepth (paperKey p) 0 dir
        let s4 := queueLayerOpacityTransition pr.1 (some pr.2) 1 LAYER_FADE_MS now
        let s5 := clearSelection s4
        let s6 := startCameraTransition s5 ((nextDepth : ℚ) + (CAMERA_LAYER_OFFSET : ℚ))
          (nextDepth : ℚ) CAMERA_TRANSITION_MS now
        { s6 with
          statusLoading := false
          statusError := none
          isDrilling := false
          isTransitioning := false
          phase := .idle }
  | _ => s

/-- Guards plus synchronous prefix of navigateBack (App.jsx 584-613):
lock acquisition, capture of the top two layers and the restore snapshot,
outward pre-zoom, and the two layer fades.  The awaited remainder is
backResolve. -/
def backStart (s : NavState) (now : ℚ) : NavState :=
  if s.isDrilling || s.isTransitioning then s
  else if s.navigationStack.length = 0 ∨ s.galaxyLayers.length < 2 then s
  else
    let s1 := { s with
      isTransitioning := true
      statusLoading := true
      statusError := none }
    let currentLayer := s1.galaxyLayers.getLast?
    let previousLayer := s1.galaxyLayers.get? (s1.galaxyLayers.length - 2)
    let restoreState := (s1.navigationStack.getLast?).getD default
    let s2 := startCameraTransition s1 (s1.cameraZ + 24) (s1.targetZ + 16)
      PRE_ZOOM_MS now
    let s3 := queueLayerOpacityTransition s2 currentLayer 0 (PRE_ZOOM_MS + 120) now
    let s4 := queueLayerOpacityTransition s3 previousLayer 1 (PRE_ZOOM_MS + 160) now
    { s4 with phase := .backPending currentLayer restoreState }

/-- Remainder of navigateBack after its await point (App.jsx 615-643):
removal and pop of the top layer, pop of the matching snapshot, depth and
camera restore from the snapshot, and the finally release of the lock. -/
def backResolve (s : NavState) (now : ℚ) : NavState :=
  match s.phase with
  | .backPending currentLayer restoreState =>
    let s1 := removeGalaxyLayer s currentLayer
    let s2 := { s1 with
      galaxyLayers := s1.galaxyLayers.dropLast
      navigationStack := s1.navigationStack.dropLast
      currentDepth := restoreState.depth }
    let s3 := clearSelection s2
    let s4 := startCameraTransition s3 restoreState.cameraPositionZ
      restoreState.cameraTargetZ CAMERA_TRANSITION_MS now
    { s4 with
      statusLoading := false
      statusError := none
      isTransitioning := false
      phase := .idle }
  | _ => s

/-- onClick, App.jsx 653-665: the hit argument is the nearest entity
under the pointer, none when the ray hits nothing. -/
def onClick (s : NavState) (hit : Option Nat) : NavState :=
  if s.isTransitioning then s
  else
    match hit with
    | some i => applyStarSelection s i
    | none => clearSelection s

/-- Events of the embedded event loop.  Each rational argument is the
performance.now() timestamp at which the handler runs.  A clickStar hit
can only name a star of the global scene list, since the raycaster
intersects exactly that list. -/
inductive NavEvent where
  | drillStart (now : ℚ) (paper : Option Paper) : NavEvent
  | drillResolve (now : ℚ) (outcome : Except String (List Paper))
      (dir : Nat → ℚ × ℚ × ℚ) : NavEvent
  | backStart (now : ℚ) : NavEvent
  | backResolve (now : ℚ) : NavEvent
  | clickStar (i : Nat) : NavEvent
  | clickMiss : NavEvent
  | tick (now : ℚ) : NavEvent

/-- Small-step interpreter of the event loop. -/
def step (s : NavState) (e : NavEvent) : NavState :=
  match e with
  | .drillStart now p => drillStart s now p
  | .drillResolve now outcome dir => drillResolve s now outcome dir
  | .backStart now => backStart s now
  | .backResolve now => backResolve s now
  | .clickStar i => if i ∈ s.stars then onClick s (some i) else s
  | .clickMiss => onClick s none
  | .tick now => tickFrame now s

/-- State of the effect body right after setup (App.jsx 110-181): camera
at z = 170, orbit target at the origin, no layers, empty history, loading
flag raised. -/
def initState (field : String) : NavState :=
  { nextId := 0
    starHeap := fun _ => default
    stars := []
    galaxyLayers := []
    opacityTransitions := []
    selectedStar := none
    selectedPaper := none
    isDrilling := false
    isTransitioning := false
    cameraTransition :=
      { active := false
        startMs := 0
        durationMs := CAMERA_TRANSITION_MS
        fromCameraZ := 170
        toCameraZ := 170
        fromTargetZ := 0
        toTargetZ := 0 }
    cameraZ := 170
    targetZ := 0
    currentDepth := 0
    navigationStack := []
    statusLoading := true
    statusError := none
    phase := .idle
    selectedField := field }

/-- Successful loadPapers (App.jsx 688-713): the root layer is created
unconditionally from the payload list, at depth 0, with layer key root and
initial opacity 1, and the loading flag drops. -/
def loadPapersOk (field : String) (papers : List Paper)
    (dir : Nat → ℚ × ℚ × ℚ) : NavState :=
  { (createGalaxyLayer (initState field) papers 0 (some "root") 1 dir).1 with
    statusLoading := false
    statusError := none }

/-
Record normal forms and field-preservation lemmas for the state
transformers, used throughout the claim proofs.
-/

/-- The list of transitions pushed by one queueLayerOpacityTransition
call (empty when the guard fires). -/
def queuedTransitions (s : NavState) (layer : Option Layer)
    (toOpacity durationMs now : ℚ) : List OpacityTransition :=
  match layer with
  | none => []
  | some l =>
    if l.starIds = [] then []
    else
      [{ starIds := l.starIds
         fromOpacities := l.starIds.map (fun i => (s.starHeap i).opacity)
         toOpacity := clampQ toOpacity 0 1
         startMs := now
         durationMs := durationMs }]

lemma queueLayerOpacityTransition_eq (s : NavState) (layer : Option Layer)
    (o d n : ℚ) :
    queueLayerOpacityTransition s layer o d n =
      { s with opacityTransitions :=
          s.opacityTransitions ++ queuedTransitions s layer o d n } := by
  cases layer with
  | none => simp [queueLayerOpacityTransition, queuedTransitions]
  | some l =>
    simp only [queueLayerOpacityTransition, queuedTransitions]
    split <;> simp

/-- The heap after resetStarAppearance. -/
def resetHeap (s : NavState) (star : Option Nat) : Nat → Star :=
  match star with
  | none => s.starHeap
  | some i => fun j =>
    if j = i then
      { s.starHeap i with
        color := (s.starHeap i).baseColor
        emissive := (s.starHeap i).baseColor
        emissiveIntensity := (s.starHeap i).baseEmissiveIntensity }
    else s.starHeap j

lemma resetStarAppearance_eq (s : NavState) (star : Option Nat) :
    resetStarAppearance s star = { s with starHeap := resetHeap s star } := by
  cases star <;> rfl

lemma clearSelection_eq (s : NavState) :
    clearSelection s =
      { s with
        starHeap := resetHeap s s.selectedStar
        selectedStar := none
        selectedPaper := none } := by
  cases h : s.selectedStar <;>
    simp [clearSelection, resetStarAppearance_eq, resetHeap, h]

lemma removeGalaxyLayer_eq (s : NavState) (layer : Option Layer) :
    removeGalaxyLayer s layer =
      { s with stars :=
          match layer with
          | none => s.stars
          | some l => l.starIds.foldl (fun lst i => lst.erase i) s.stars } := by
  cases layer <;> rfl

lemma layerStarList_length (c : LayerBuildCtx) (papers : List Paper) :
    ∀ n : Nat, (layerStarList c papers n).length = papers.length := by
  induction papers with
  | nil => intro n; rfl
  | cons p rest ih => intro n; simpa [layerStarList] using ih (n + 1)

@[simp] lemma createGalaxyLayer_galaxyLayers (s : NavState) (papers : List Paper)
    (depth : Int) (pid : Option String) (op : ℚ) (dir : Nat → ℚ × ℚ × ℚ) :
    (createGalaxyLayer s papers depth pid op dir).1.galaxyLayers =
      s.galaxyLayers ++ [(createGalaxyLayer s papers depth pid op dir).2] := rfl

@[simp] lemma createGalaxyLayer_navigationStack (s : NavState) (papers : List Paper)
    (depth : Int) (pid : Option String) (op : ℚ) (dir : Nat → ℚ × ℚ × ℚ) :
    (createGalaxyLayer s papers depth pid op dir).1.navigationStack =
      s.navigationStack := rfl

@[simp] lemma createGalaxyLayer_currentDepth (s : NavState) (papers : List Paper)
    (depth : Int) (pid : Option String) (op : ℚ) (dir : Nat → ℚ × ℚ × ℚ) :
    (createGalaxyLayer s papers depth pid op dir).1.currentDepth = s.currentDepth := rfl

@[simp] lemma createGalaxyLayer_phase (s : NavState) (papers : List Paper)
    (depth : Int) (pid : Option String) (op : ℚ) (dir : Nat → ℚ × ℚ × ℚ) :
    (createGalaxyLayer s papers depth pid op dir).1.phase = s.phase := rfl

@[simp] lemma createGalaxyLayer_isDrilling (s : NavState) (papers : List Paper)
    (depth : Int) (pid : Option String) (op : ℚ) (dir : Nat → ℚ × ℚ × ℚ) :
    (createGalaxyLayer s papers depth pid op dir).1.isDrilling = s.isDrilling := rfl

@[simp] lemma createGalaxyLayer_isTransitioning (s : NavState) (papers : List Paper)
    (depth : Int) (pid : Option String) (op : ℚ) (dir : Nat → ℚ × ℚ × ℚ) :
    (createGalaxyLayer s papers depth pid op dir).1.isTransitioning =
      s.isTransitioning := rfl

@[simp] lemma createGalaxyLayer_cameraTransition (s : NavState) (papers : List Paper)
    (depth : Int) (pid : Option String) (op : ℚ) (dir : Nat → ℚ × ℚ × ℚ) :
    (createGalaxyLayer s papers depth pid op dir).1.cameraTransition =
      s.cameraTransition := rfl

@[simp] lemma createGalaxyLayer_cameraZ (s : NavState) (papers : List Paper)
    (depth : Int) (pid : Option String) (op : ℚ) (dir : Nat → ℚ × ℚ × ℚ) :
    (createGalaxyLayer s papers depth pid op dir).1.cameraZ = s.cameraZ := rfl

@[simp] lemma createGalaxyLayer_targetZ (s : NavState) (papers : List Paper)
    (depth : Int) (pid : Option String) (op : ℚ) (dir : Nat → ℚ × ℚ × ℚ) :
    (createGalaxyLayer s papers depth pid op dir).1.targetZ = s.targetZ := rfl

@[simp] lemma createGalaxyLayer_opacityTransitions (s : NavState) (papers : List Paper)
    (depth : Int) (pid : Option String) (op : ℚ) (dir : Nat → ℚ × ℚ × ℚ) :
    (createGalaxyLayer s papers depth pid op dir).1.opacityTransitions =
      s.opacityTransitions := rfl

@[simp] lemma createGalaxyLayer_selectedStar (s : NavState) (papers : List Paper)
    (depth : Int) (pid : Option String) (op : ℚ) (dir : Nat → ℚ × ℚ × ℚ) :
    (createGalaxyLayer s papers depth pid op dir).1.selectedStar = s.selectedStar := rfl

@[simp] lemma createGalaxyLayer_statusError (s : NavState) (papers : List Paper)
    (depth : Int) (pid : Option String) (op : ℚ) (dir : Nat → ℚ × ℚ × ℚ) :
    (createGalaxyLayer s papers depth pid op dir).1.statusError = s.statusError := rfl

@[simp] lemma createGalaxyLayer_statusLoading (s : NavState) (papers : List Paper)
    (depth : Int) (pid : Option String) (op : ℚ) (dir : Nat → ℚ × ℚ × ℚ) :
    (createGalaxyLayer s papers depth pid op dir).1.statusLoading = s.statusLoading := rfl

lemma createGalaxyLayer_layer (s : NavState) (papers : List Paper)
    (depth : Int) (pid : Option String) (op : ℚ) (dir : Nat → ℚ × ℚ × ℚ) :
    (createGalaxyLayer s papers depth pid op dir).2.paperId = pid
    ∧ (createGalaxyLayer s papers depth pid op dir).2.depth = depth
    ∧ (createGalaxyLayer s papers depth pid op dir).2.starIds.length = papers.length := by
  refine ⟨rfl, rfl, ?_⟩
  simp [createGalaxyLayer, layerStarList_length]

lemma updateCameraTransition_fields (nowMs : ℚ) (s : NavState) :
    (updateCameraTransition nowMs s).galaxyLayers = s.galaxyLayers
    ∧ (updateCameraTransition nowMs s).navigationStack = s.navigationStack
    ∧ (updateCameraTransition nowMs s).currentDepth = s.currentDepth
    ∧ (updateCameraTransition nowMs s).phase = s.phase
    ∧ (updateCameraTransition nowMs s).isDrilling = s.isDrilling
    ∧ (updateCameraTransition nowMs s).isTransitioning = s.isTransitioning
    ∧ (updateCameraTransition nowMs s).statusLoading = s.statusLoading
    ∧ (updateCameraTransition nowMs s).statusError = s.statusError
    ∧ (updateCameraTransition nowMs s).opacityTransitions = s.opacityTransitions
    ∧ (updateCameraTransition nowMs s).starHeap = s.starHeap
    ∧ (updateCameraTransition nowMs s).stars = s.stars
    ∧ (updateCameraTransition nowMs s).selectedStar = s.selectedStar := by
  simp only [updateCameraTransition]
  split
  · simp
  · split <;> simp

lemma updateOpacityTransitions_fields (nowMs : ℚ) (s : NavState) :
    (updateOpacityTransitions nowMs s).galaxyLayers = s.galaxyLayers
    ∧ (updateOpacityTransitions nowMs s).navigationStack = s.navigationStack
    ∧ (updateOpacityTransitions nowMs s).currentDepth = s.currentDepth
    ∧ (updateOpacityTransitions nowMs s).phase = s.phase
    ∧ (updateOpacityTransitions nowMs s).isDrilling = s.isDrilling
    ∧ (updateOpacityTransitions nowMs s).isTransitioning = s.isTransitioning
    ∧ (updateOpacityTransitions nowMs s).statusLoading = s.statusLoading
    ∧ (updateOpacityTransitions nowMs s).statusError = s.statusError
    ∧ (updateOpacityTransitions nowMs s).cameraTransition = s.cameraTransition
    ∧ (updateOpacityTransitions nowMs s).cameraZ = s.cameraZ
    ∧ (updateOpacityTransitions nowMs s).targetZ = s.targetZ
    ∧ (updateOpacityTransitions nowMs s).stars = s.stars
    ∧ (updateOpacityTransitions nowMs s).selectedStar = s.selectedStar := by
  simp [updateOpacityTransitions]

lemma applyStarSelection_fields (s : NavState) (i : Nat) :
    (applyStarSelection s i).galaxyLayers = s.galaxyLayers
    ∧ (applyStarSelection s i).navigationStack = s.navigationStack
    ∧ (applyStarSelection s i).currentDepth = s.currentDepth
    ∧ (applyStarSelection s i).phase = s.phase
    ∧ (applyStarSelection s i).isDrilling = s.isDrilling
    ∧ (applyStarSelection s i).isTransitioning = s.isTransitioning
    ∧ (applyStarSelection s i).statusLoading = s.statusLoading
    ∧ (applyStarSelection s i).statusError = s.statusError
    ∧ (applyStarSelection s i).cameraTransition = s.cameraTransition
    ∧ (applyStarSelection s i).cameraZ = s.cameraZ
    ∧ (applyStarSelection s i).targetZ = s.targetZ
    ∧ (applyStarSelection s i).opacityTransitions = s.opacityTransitions
    ∧ (applyStarSelection s i).stars = s.stars := by
  simp only [applyStarSelection]
  split <;> simp [resetStarAppearance_eq]

lemma clearSelection_fields (s : NavState) :
    (clearSelection s).galaxyLayers = s.galaxyLayers
    ∧ (clearSelection s).navigationStack = s.navigationStack
    ∧ (clearSelection s).currentDepth = s.currentDepth
    ∧ (clearSelection s).phase = s.phase
    ∧ (clearSelection s).isDrilling = s.isDrilling
    ∧ (clearSelection s).isTransitioning = s.isTransitioning
    ∧ (clearSelection s).statusLoading = s.statusLoading
    ∧ (clearSelection s).statusError = s.statusError
    ∧ (clearSelection s).cameraTransition = s.cameraTransition
    ∧ (clearSelection s).cameraZ = s.cameraZ
    ∧ (clearSelection s).targetZ = s.targetZ
    ∧ (clearSelection s).opacityTransitions = s.opacityTransitions
    ∧ (clearSelection s).stars = s.stars := by
  simp [clearSelection_eq]

lemma onClick_fields (s : NavState) (hit : Option Nat) :
    (onClick s hit).galaxyLayers = s.galaxyLayers
    ∧ (onClick s hit).navigationStack = s.navigationStack
    ∧ (onClick s hit).currentDepth = s.currentDepth
    ∧ (onClick s hit).phase = s.phase
    ∧ (onClick s hit).isDrilling = s.isDrilling
    ∧ (onClick s hit).isTransitioning = s.isTransitioning := by
  simp only [onClick]
  split
  · simp
  · cases hit with
    | none => exact ⟨(clearSelection_fields s).1, (clearSelection_fields s).2.1,
        (clearSelection_fields s).2.2.1, (clearSelection_fields s).2.2.2.1,
        (clearSelection_fields s).2.2.2.2.1, (clearSelection_fields s).2.2.2.2.2.1⟩
    | some i => exact ⟨(applyStarSelection_fields s i).1, (applyStarSelection_fields s i).2.1,
        (applyStarSelection_fields s i).2.2.1, (applyStarSelection_fields s i).2.2.2.1,
        (applyStarSelection_fields s i).2.2.2.2.1, (applyStarSelection_fields s i).2.2.2.2.2.1⟩

lemma tickFrame_fields (nowMs : ℚ) (s : NavState) :
    (tickFrame nowMs s).galaxyLayers = s.galaxyLayers
    ∧ (tickFrame nowMs s).navigationStack = s.navigationStack
    ∧ (tickFrame nowMs s).currentDepth = s.currentDepth
    ∧ (tickFrame nowMs s).phase = s.phase
    ∧ (tickFrame nowMs s).isDrilling = s.isDrilling
    ∧ (tickFrame nowMs s).isTransitioning = s.isTransitioning
    ∧ (tickFrame nowMs s).stars = s.stars
    ∧ (tickFrame nowMs s).selectedStar = s.selectedStar := by
  obtain ⟨a1, a2, a3, a4, a5, a6, a7, a8, a9, a10, a11, a12⟩ :=
    updateCameraTransition_fields nowMs s
  obtain ⟨b1, b2, b3, b4, b5, b6, b7, b8, b9, b10, b11, b12, b13⟩ :=
    updateOpacityTransitions_fields nowMs (updateCameraTransition nowMs s)
  unfold tickFrame
  exact ⟨b1.trans a1, b2.trans a2, b3.trans a3, b4.trans a4, b5.trans a5,
    b6.trans a6, b12.trans a11, b13.trans a12⟩

/-
Concrete fixtures used by witnesses and counterexamples.
-/

/-- A concrete paper with a doi. -/
def paperA : Paper :=
  { title := "A", authors := [], publication_year := some 2000,
    cited_by_count := 100, doi := some "10.1/a", primary_topic := none, size := 2 }

/-- A second concrete paper. -/
def paperB : Paper :=
  { title := "B", authors := [], publication_year := some 2010,
    cited_by_count := 10, doi := some "10.1/b", primary_topic := none, size := 1 }

/-- A fixed direction oracle. -/
def sample0 : Nat → ℚ × ℚ × ℚ := fun _ => (0, 0, 0)

/-- A state with the transition lock held. -/
def busyState : NavState := { initState "physics" with isTransitioning := true }

/-
Claim C3: mutual exclusion of the drill and back flows.
-/

/-- Conclusion of the mutual-exclusion claim: both requests are complete
no-ops on the given state. -/
def MutexRejected (s : NavState) (nd nb : ℚ) (p : Option Paper) : Prop :=
  step s (.drillStart nd p) = s ∧ step s (.backStart nb) = s

/-- C3: while either flow is in flight (either lock boolean held), a
drill request and a back request are rejected outright: the resulting
state is unchanged, so history size, layer count, depth and every other
piece of navigation state are untouched and nothing is queued. -/
theorem drill_back_mutual_exclusion (s : NavState) (nd nb : ℚ) (p : Option Paper)
    (h : s.isDrilling = true ∨ s.isTransitioning = true) :
    MutexRejected s nd nb p := by
  have hg : (s.isDrilling || s.isTransitioning) = true := by
    rcases h with h | h <;> simp [h]
  refine ⟨?_, ?_⟩
  · cases p with
    | none => rfl
    | some q => simp [step, drillStart, hg]
  · simp [step, backStart, hg]

/-- Witness for C3 at a concrete locked state. -/
theorem drill_back_mutual_exclusion_witness :
    MutexRejected busyState 0 0 (some paperA) :=
  drill_back_mutual_exclusion busyState 0 0 (some paperA) (Or.inr rfl)

/-
Claim C2: the stack invariant.
-/

/-- Inductive invariant tying the history length to the layer count, with
the bookkeeping needed across the two async flows. -/
def StackInv (s : NavState) : Prop :=
  s.navigationStack.length + 1 = s.galaxyLayers.length
  ∧ (∀ pr al p, s.phase = .drillPending pr al p → s.isTransitioning = true)
  ∧ (∀ cl rs, s.phase = .backPending cl rs →
      s.isTransitioning = true ∧ s.navigationStack ≠ [] ∧ 2 ≤ s.galaxyLayers.length)

lemma stackInv_step (s : NavState) (e : NavEvent) (h : StackInv s) :
    StackInv (step s e) := by
  obtain ⟨hlen, hdrill, hback⟩ := h
  cases e with
  | drillStart now p =>
    cases p with
    | none => exact ⟨hlen, hdrill, hback⟩
    | some q =>
      show StackInv (drillStart s now (some q))
      cases hg : s.isDrilling || s.isTransitioning with
      | true => simpa [drillStart, hg] using ⟨hlen, hdrill, hback⟩
      | false =>
        simp only [drillStart, hg]
        refine ⟨by simpa [startCameraTransition] using hlen, ?_, ?_⟩
        · intro pr al pp _; rfl
        · intro cl rs hph; simp [startCameraTransition] at hph
  | drillResolve now outcome dir =>
    show StackInv (drillResolve s now outcome dir)
    cases hph : s.phase with
    | idle => simpa [drillResolve, hph] using ⟨hlen, hdrill, hback⟩
    | backPending cl rs => simpa [drillResolve, hph] using ⟨hlen, hdrill, hback⟩
    | drillPending prev al p =>
      cases outcome with
      | error msg =>
        simp only [drillResolve, hph, drillFail]
        refine ⟨by simpa [startCameraTransition] using hlen, ?_, ?_⟩
        · intro pr al2 pp hx; simp [startCameraTransition] at hx
        · intro cl rs hx; simp [startCameraTransition] at hx
      | ok papers =>
        by_cases hemp : papers = []
        · simp only [drillResolve, hph, hemp, drillFail, if_pos rfl]
          refine ⟨by simpa [startCameraTransition] using hlen, ?_, ?_⟩
          · intro pr al2 pp hx; simp [startCameraTransition] at hx
          · intro cl rs hx; simp [startCameraTransition] at hx
        · simp only [drillResolve, hph, if_neg hemp]
          refine ⟨?_, ?_, ?_⟩
          · simp [startCameraTransition, clearSelection_eq,
              queueLayerOpacityTransition_eq]
            omega
          · intro pr al2 pp hx
            simp [startCameraTransition, clearSelection_eq,
              queueLayerOpacityTransition_eq] at hx
          · intro cl rs hx
            simp [startCameraTransition, clearSelection_eq,
              queueLayerOpacityTransition_eq] at hx
  | backStart now =>
    show StackInv (backStart s now)
    unfold backStart
    cases hg : s.isDrilling || s.isTransitioning with
    | true =>
      rw [if_pos rfl]
      exact ⟨hlen, hdrill, hback⟩
    | false =>
      rw [if_neg (by simp)]
      by_cases hguard : s.navigationStack.length = 0 ∨ s.galaxyLayers.length < 2
      · rw [if_pos hguard]
        exact ⟨hlen, hdrill, hback⟩
      · rw [if_neg hguard]
        push_neg at hguard
        refine ⟨?_, ?_, ?_⟩
        · simpa [startCameraTransition, queueLayerOpacityTransition_eq] using hlen
        · intro pr al pp hx
          simp [startCameraTransition, queueLayerOpacityTransition_eq] at hx
        · intro cl rs hx
          simp [startCameraTransition, queueLayerOpacityTransition_eq]
          refine ⟨?_, hguard.2⟩
          intro hnil
          exact hguard.1 (by simp [hnil])
  | backResolve now =>
    show StackInv (backResolve s now)
    cases hph : s.phase with
    | idle => simpa [backResolve, hph] using ⟨hlen, hdrill, hback⟩
    | drillPending prev al p => simpa [backResolve, hph] using ⟨hlen, hdrill, hback⟩
    | backPending cl rs =>
      obtain ⟨_, hne, hge⟩ := hback cl rs hph
      simp only [backResolve, hph]
      refine ⟨?_, ?_, ?_⟩
      · simp [startCameraTransition, clearSelection_eq, removeGalaxyLayer_eq,
          List.length_dropLast]
        have : s.navigationStack.length ≠ 0 := by
          simpa [List.length_eq_zero] using hne
        omega
      · intro pr al2 pp hx
        simp [startCameraTransition, clearSelection_eq, removeGalaxyLayer_eq] at hx
      · intro cl2 rs2 hx
        simp [startCameraTransition, clearSelection_eq, removeGalaxyLayer_eq] at hx
  | clickStar i =>
    show StackInv (if i ∈ s.stars then onClick s (some i) else s)
    split
    · obtain ⟨g1, g2, g3, g4, g5, g6⟩ := onClick_fields s (some i)
      exact ⟨by rw [g2, g1]; exact hlen,
        fun pr al p hx => by rw [g6]; exact hdrill pr al p (g4 ▸ hx),
        fun cl rs hx => by
          have hb := hback cl rs (g4 ▸ hx)
          exact ⟨by rw [g6]; exact hb.1,
            by rw [g2]; exact hb.2.1, by rw [g1]; exact hb.2.2⟩⟩
    · exact ⟨hlen, hdrill, hback⟩
  | clickMiss =>
    obtain ⟨g1, g2, g3, g4, g5, g6⟩ := onClick_fields s none
    show StackInv (onClick s none)
    exact ⟨by rw [g2, g1]; exact hlen,
      fun pr al p hx => by rw [g6]; exact hdrill pr al p (g4 ▸ hx),
      fun cl rs hx => by
        have hb := hback cl rs (g4 ▸ hx)
        exact ⟨by rw [g6]; exact hb.1,
          by rw [g2]; exact hb.2.1, by rw [g1]; exact hb.2.2⟩⟩
  | tick now =>
    obtain ⟨g1, g2, g3, g4, g5, g6, g7, g8⟩ := tickFrame_fields now s
    show StackInv (tickFrame now s)
    exact ⟨by rw [g2, g1]; exact hlen,
      fun pr al p hx => by rw [g6]; exact hdrill pr al p (g4 ▸ hx),
      fun cl rs hx => by
        have hb := hback cl rs (g4 ▸ hx)
        exact ⟨by rw [g6]; exact hb.1,
          by rw [g2]; exact hb.2.1, by rw [g1]; exact hb.2.2⟩⟩

lemma stackInv_foldl (es : List NavEvent) :
    ∀ s : NavState, StackInv s → StackInv (es.foldl step s) := by
  induction es with
  | nil => intro s h; exact h
  | cons e rest ih => intro s h; exact ih _ (stackInv_step s e h)

lemma stackInv_loadPapersOk (field : String) (papers : List Paper)
    (dir : Nat → ℚ × ℚ × ℚ) : StackInv (loadPapersOk field papers dir) := by
  refine ⟨?_, ?_, ?_⟩
  · simp [loadPapersOk, initState]
  · intro pr al p hx
    simp only [loadPapersOk] at hx
    rw [show ((createGalaxyLayer (initState field) papers 0 (some "root") 1 dir).1.phase)
      = Phase.idle from rfl] at hx
    exact absurd hx (by simp)
  · intro cl rs hx
    simp only [loadPapersOk] at hx
    rw [show ((createGalaxyLayer (initState field) papers 0 (some "root") 1 dir).1.phase)
      = Phase.idle from rfl] at hx
    exact absurd hx (by simp)

/-- C2: from the loaded root state, after any event sequence, whenever
observed between events (no operation mid-step), the navigation history
size equals the layer count minus one; in particular this holds after
every completed successful drill-in or back operation. -/
theorem history_size_is_layer_count_minus_one (field : String)
    (papers : List Paper) (dir : Nat → ℚ × ℚ × ℚ) (es : List NavEvent) :
    (es.foldl step (loadPapersOk field papers dir)).navigationStack.length + 1 =
      (es.foldl step (loadPapersOk field papers dir)).galaxyLayers.length :=
  (stackInv_foldl es _ (stackInv_loadPapersOk field papers dir)).1

/-
Claims C4 and C1: the failure branch and the zero-result branch of a
drill-in.
-/

/-- A pending drill, obtained by starting a drill on the loaded
one-paper root state. -/
def pendState : NavState :=
  step (loadPapersOk "physics" [paperA] sample0) (.drillStart 0 (some paperA))

/-- The snapshot captured by the pending drill of pendState. -/
def pendSnap : Snapshot :=
  match pendState.phase with
  | .drillPending pr _ _ => pr
  | _ => default

/-- The active layer captured by the pending drill of pendState. -/
def pendLayer : Option Layer :=
  match pendState.phase with
  | .drillPending _ al _ => al
  | _ => none

/-- The paper captured by the pending drill of pendState. -/
def pendPaper : Paper :=
  match pendState.phase with
  | .drillPending _ _ p => p
  | _ => default

/-- Conclusion of the failed-drill claim, for a drill pending at state s
with captured snapshot prev whose fetch rejects at time now with message
msg: the revert camera transition is started from the current camera
toward the snapshot values over the pre-zoom duration, the error (or its
fallback text) is surfaced, the layer stack and the history are
untouched, and for every outcome of the fetch the cleanup releases both
lock booleans and returns to the idle phase. -/
def DrillFailSpec (s : NavState) (now : ℚ) (prev : Snapshot) (msg : String)
    (dir : Nat → ℚ × ℚ × ℚ) : Prop :=
  (step s (.drillResolve now (.error msg) dir)).cameraTransition =
      { active := true
        startMs := now
        durationMs := PRE_ZOOM_MS
        fromCameraZ := s.cameraZ
        toCameraZ := prev.cameraPositionZ
        fromTargetZ := s.targetZ
        toTargetZ := prev.cameraTargetZ }
  ∧ (step s (.drillResolve now (.error msg) dir)).statusError =
      some (if msg = "" then "Failed to fetch references" else msg)
  ∧ (step s (.drillResolve now (.error msg) dir)).statusLoading = false
  ∧ (step s (.drillResolve now (.error msg) dir)).galaxyLayers = s.galaxyLayers
  ∧ (step s (.drillResolve now (.error msg) dir)).navigationStack = s.navigationStack
  ∧ ∀ outcome : Except String (List Paper),
      (step s (.drillResolve now outcome dir)).isDrilling = false
      ∧ (step s (.drillResolve now outcome dir)).isTransitioning = false
      ∧ (step s (.drillResolve now outcome dir)).phase = .idle

/-- C4: when the reference fetch of a pending drill rejects, the
operation starts a camera transition back to the pre-drill camera-z and
target-z recorded in the snapshot, surfaces the error, leaves the layer
store and the navigation history untouched, and the cleanup releases the
lock and returns to idle on every branch of the resolution. -/
theorem drill_failure_reverts_and_releases (s : NavState) (now : ℚ)
    (prev : Snapshot) (al : Option Layer) (p : Paper) (msg : String)
    (dir : Nat → ℚ × ℚ × ℚ) (h : s.phase = .drillPending prev al p) :
    DrillFailSpec s now prev msg dir := by
  refine ⟨?_, ?_, ?_, ?_, ?_, ?_⟩
  · simp [step, drillResolve, h, drillFail, startCameraTransition]
  · simp [step, drillResolve, h, drillFail, startCameraTransition]
  · simp [step, drillResolve, h, drillFail, startCameraTransition]
  · simp [step, drillResolve, h, drillFail, startCameraTransition]
  · simp [step, drillResolve, h, drillFail, startCameraTransition]
  · intro outcome
    cases outcome with
    | error m => simp [step, drillResolve, h, drillFail, startCameraTransition]
    | ok papers =>
      by_cases hemp : papers = []
      · simp [step, drillResolve, h, hemp, drillFail, startCameraTransition]
      · simp [step, drillResolve, h, hemp, drillFail, startCameraTransition,
          clearSelection_eq, queueLayerOpacityTransition_eq]

/-- Witness for C4 at the concrete pending drill. -/
theorem drill_failure_reverts_and_releases_witness :
    DrillFailSpec pendState 220 pendSnap "boom" sample0 :=
  drill_failure_reverts_and_releases pendState 220 pendSnap pendLayer pendPaper
    "boom" sample0 rfl

/-- The state after a drill on the loaded one-paper root resolves with
zero references. -/
def emptyDrillState : NavState :=
  step pendState (.drillResolve 220 (.ok []) sample0)

/-- C1 counterexample: on a zero-reference resolution the source throws
and lands in the same catch branch as a transport failure, so the message
is surfaced through status.error, the very channel the claim says is not
used (there is no separate notice channel); and a second drill attempt on
the same paper is not short-circuited: it re-enters the fetching phase,
because no zero-result cache exists anywhere in the state. -/
theorem empty_result_notice_and_cache_refuted :
    emptyDrillState.statusError = some "No references found for this paper"
    ∧ (step emptyDrillState (.drillStart 300 (some paperA))).phase.isDrillPendingB
        = true :=
  ⟨rfl, rfl⟩

/-- Conclusion of the amended zero-result claim, for a drill pending at
state s with captured snapshot prev resolving at time now with an empty
reference list: the camera reverts exactly like the failure path, the
layer store and history are untouched, the lock is released and the phase
returns to idle, but the no-references message is surfaced through the
error status (there is no distinct non-error notice), and nothing is
cached: any later drill request on any paper, in particular the same one,
passes the guard and re-enters the fetching phase instead of
short-circuiting. -/
def EmptyResultSpec (s : NavState) (now : ℚ) (prev : Snapshot)
    (dir : Nat → ℚ × ℚ × ℚ) : Prop :=
  (step s (.drillResolve now (.ok []) dir)).cameraTransition =
      { active := true
        startMs := now
        durationMs := PRE_ZOOM_MS
        fromCameraZ := s.cameraZ
        toCameraZ := prev.cameraPositionZ
        fromTargetZ := s.targetZ
        toTargetZ := prev.cameraTargetZ }
  ∧ (step s (.drillResolve now (.ok []) dir)).statusError =
      some "No references found for this paper"
  ∧ (step s (.drillResolve now (.ok []) dir)).statusLoading = false
  ∧ (step s (.drillResolve now (.ok []) dir)).galaxyLayers = s.galaxyLayers
  ∧ (step s (.drillResolve now (.ok []) dir)).navigationStack = s.navigationStack
  ∧ (step s (.drillResolve now (.ok []) dir)).isDrilling = false
  ∧ (step s (.drillResolve now (.ok []) dir)).isTransitioning = false
  ∧ (step s (.drillResolve now (.ok []) dir)).phase = .idle
  ∧ ∀ (t : ℚ) (q : Paper),
      (step (step s (.drillResolve now (.ok []) dir))
          (.drillStart t (some q))).phase.isDrillPendingB = true

/-- C1 amended: a zero-reference resolution reverts the camera like the
failure path, returns to idle without mutating layer store or history and
with the lock released, but it surfaces the fixed no-references message
through the error status rather than a distinct non-error notice, and it
caches nothing: a second drill attempt on the same paper re-issues the
fetch (re-enters the fetching phase) instead of short-circuiting. -/
theorem empty_result_reverts_uncached (s : NavState) (now : ℚ)
    (prev : Snapshot) (al : Option Layer) (p : Paper)
    (dir : Nat → ℚ × ℚ × ℚ) (h : s.phase = .drillPending prev al p) :
    EmptyResultSpec s now prev dir := by
  refine ⟨?_, ?_, ?_, ?_, ?_, ?_, ?_, ?_, ?_⟩
  · simp [step, drillResolve, h, drillFail, startCameraTransition]
  · simp [step, drillResolve, h, drillFail, startCameraTransition]
  · simp [step, drillResolve, h, drillFail, startCameraTransition]
  · simp [step, drillResolve, h, drillFail, startCameraTransition]
  · simp [step, drillResolve, h, drillFail, startCameraTransition]
  · simp [step, drillResolve, h, drillFail, startCameraTransition]
  · simp [step, drillResolve, h, drillFail, startCameraTransition]
  · simp [step, drillResolve, h, drillFail, startCameraTransition]
  · intro t q
    simp [step, drillResolve, h, drillFail, startCameraTransition, drillStart,
      Phase.isDrillPendingB]

/-- Witness for the amended C1 at the concrete pending drill. -/
theorem empty_result_reverts_uncached_witness :
    EmptyResultSpec pendState 220 pendSnap sample0 :=
  empty_result_reverts_uncached pendState 220 pendSnap pendLayer pendPaper
    sample0 rfl

/-
Claim C6: layer creation and empty paper lists.
-/

lemma createGalaxyLayer_starCount (s : NavState) (papers : List Paper)
    (depth : Int) (pid : Option String) (op : ℚ) (dir : Nat → ℚ × ℚ × ℚ) :
    (createGalaxyLayer s papers depth pid op dir).2.starIds.length = papers.length :=
  (createGalaxyLayer_layer s papers depth pid op dir).2.2

/-- C6 counterexample: createGalaxyLayer does not fail on an empty papers
list; loadPapers calls it with whatever list the payload carries, and an
empty payload registers a root layer whose entity list is empty, so not
every registered layer has a non-empty entity list. -/
theorem create_layer_accepts_empty_papers :
    (loadPapersOk "physics" [] sample0).galaxyLayers.map
      (fun l => l.starIds.length) = [0] := rfl

/-- Conclusion of the amended layer-creation claim: every call registers
exactly one new layer, placed on top of the stack, with exactly one
entity per input paper; in particular an empty papers list registers an
empty layer instead of failing. -/
def CreateLayerSpec (s : NavState) (papers : List Paper) (depth : Int)
    (pid : Option String) (op : ℚ) (dir : Nat → ℚ × ℚ × ℚ) : Prop :=
  (createGalaxyLayer s papers depth pid op dir).1.galaxyLayers =
      s.galaxyLayers ++ [(createGalaxyLayer s papers depth pid op dir).2]
  ∧ (createGalaxyLayer s papers depth pid op dir).2.starIds.length = papers.length

/-- C6 amended: createGalaxyLayer never fails; it always registers one
new layer with one entity per input paper (so an empty input yields a
registered empty layer, which loadPapers can produce); layers created by
the drill-in path are nevertheless always non-empty, because a
zero-reference result throws before any layer is created, so the new top
layer of a successful drill has exactly one entity per fetched reference
and in particular at least one. -/
theorem create_layer_one_entity_per_paper :
    (∀ (s : NavState) (papers : List Paper) (depth : Int) (pid : Option String)
        (op : ℚ) (dir : Nat → ℚ × ℚ × ℚ), CreateLayerSpec s papers depth pid op dir)
    ∧ (∀ (s : NavState) (now : ℚ) (refs : List Paper) (dir : Nat → ℚ × ℚ × ℚ)
        (prev : Snapshot) (al : Option Layer) (p : Paper),
        s.phase = .drillPending prev al p → refs ≠ [] →
        (step s (.drillResolve now (.ok refs) dir)).galaxyLayers.getLast?.map
            (fun l => l.starIds.length) = some refs.length
        ∧ refs.length ≠ 0) := by
  constructor
  · intro s papers depth pid op dir
    exact ⟨createGalaxyLayer_galaxyLayers s papers depth pid op dir,
      createGalaxyLayer_starCount s papers depth pid op dir⟩
  · intro s now refs dir prev al p h hne
    constructor
    · simp [step, drillResolve, h, hne, clearSelection_eq,
        queueLayerOpacityTransition_eq, startCameraTransition,
        createGalaxyLayer_starCount]
    · simpa using hne

/-- Witness for the amended C6 at concrete inputs. -/
theorem create_layer_one_entity_per_paper_witness :
    CreateLayerSpec (initState "physics") [] 0 (some "root") 1 sample0
    ∧ ((step pendState (.drillResolve 220 (.ok [paperB]) sample0)).galaxyLayers.getLast?.map
        (fun l => l.starIds.length) = some [paperB].length
      ∧ [paperB].length ≠ 0) :=
  ⟨create_layer_one_entity_per_paper.1 (initState "physics") [] 0 (some "root") 1 sample0,
   create_layer_one_entity_per_paper.2 pendState 220 [paperB] sample0 pendSnap
     pendLayer pendPaper rfl (List.cons_ne_nil _ _)⟩

/-
Claim C5: depth arithmetic of consecutive drill-ins and the back restore.
-/

/-- One successful drill-in request: the selected paper, the fetched
reference list, the two handler timestamps and the direction oracle. -/
structure DrillReq where
  paper : Paper
  refs : List Paper
  t1 : ℚ
  t2 : ℚ
  dir : Nat → ℚ × ℚ × ℚ

/-- A full successful drill-in: start followed by a successful
resolution. -/
def drillOnce (s : NavState) (r : DrillReq) : NavState :=
  step (step s (.drillStart r.t1 (some r.paper))) (.drillResolve r.t2 (.ok r.refs) r.dir)

/-- A sequence of successful drill-ins. -/
def runDrills (s : NavState) (reqs : List DrillReq) : NavState :=
  reqs.foldl drillOnce s

/-- The top snapshot of the navigation history. -/
def snapTop (s : NavState) : Snapshot := (s.navigationStack.getLast?).getD default

/-- Inductive invariant after k consecutive successful drill-ins from the
loaded root. -/
def DrillInv (k : Nat) (s : NavState) : Prop :=
  s.phase = .idle
  ∧ s.isDrilling = false
  ∧ s.isTransitioning = false
  ∧ s.currentDepth = -(k : Int) * DEPTH_STEP
  ∧ s.navigationStack.length = k
  ∧ s.galaxyLayers.length = k + 1
  ∧ (s.navigationStack ≠ [] → (snapTop s).depth = -((k : Int) - 1) * DEPTH_STEP)

lemma drillOnce_inv (k : Nat) (s : NavState) (r : DrillReq) (hr : r.refs ≠ [])
    (h : DrillInv k s) :
    DrillInv (k + 1) (drillOnce s r)
    ∧ (drillOnce s r).cameraTransition.toCameraZ =
        ((s.currentDepth - DEPTH_STEP : Int) : ℚ) + (CAMERA_LAYER_OFFSET : ℚ)
    ∧ (drillOnce s r).cameraTransition.toTargetZ =
        ((s.currentDepth - DEPTH_STEP : Int) : ℚ) := by
  obtain ⟨hph, hd, ht, hdep, hstack, hlay, _⟩ := h
  have hstep : drillOnce s r =
      drillResolve (drillStart s r.t1 (some r.paper)) r.t2 (.ok r.refs) r.dir := rfl
  rw [hstep]
  simp only [drillStart, hd, ht, Bool.or_self, Bool.false_eq_true, if_false]
  simp only [drillResolve, startCameraTransition, if_neg hr]
  refine ⟨⟨?_, ?_, ?_, ?_, ?_, ?_, ?_⟩, ?_, ?_⟩
  · simp [clearSelection_eq, queueLayerOpacityTransition_eq, startCameraTransition]
  · simp [clearSelection_eq, queueLayerOpacityTransition_eq, startCameraTransition]
  · simp [clearSelection_eq, queueLayerOpacityTransition_eq, startCameraTransition]
  · simp only [clearSelection_eq, queueLayerOpacityTransition_eq, startCameraTransition]
    simp [hdep]
    ring
  · simp [clearSelection_eq, queueLayerOpacityTransition_eq, startCameraTransition,
      hstack]
  · simp [clearSelection_eq, queueLayerOpacityTransition_eq, startCameraTransition,
      hlay]
  · intro _
    simp only [snapTop]
    simp [clearSelection_eq, queueLayerOpacityTransition_eq, startCameraTransition,
      snapshotCurrentState, hdep]
  · simp [clearSelection_eq, queueLayerOpacityTransition_eq, startCameraTransition]
  · simp [clearSelection_eq, queueLayerOpacityTransition_eq, startCameraTransition]

lemma runDrills_inv (reqs : List DrillReq) :
    ∀ (s : NavState) (k : Nat), (∀ r ∈ reqs, r.refs ≠ []) → DrillInv k s →
      DrillInv (k + reqs.length) (runDrills s reqs) := by
  induction reqs with
  | nil => intro s k _ h; simpa [runDrills] using h
  | cons r rest ih =>
    intro s k hall h
    have h1 := (drillOnce_inv k s r (hall r (by simp)) h).1
    have h2 := ih (drillOnce s r) (k + 1) (fun q hq => hall q (by simp [hq])) h1
    have : k + (r :: rest).length = (k + 1) + rest.length := by simp; omega
    rw [this]
    simpa [runDrills] using h2

lemma drillInv_loadPapersOk (field : String) (papers : List Paper)
    (dir : Nat → ℚ × ℚ × ℚ) : DrillInv 0 (loadPapersOk field papers dir) := by
  refine ⟨rfl, rfl, rfl, by simp [loadPapersOk, initState], by simp [loadPapersOk, initState],
    by simp [loadPapersOk, initState], ?_⟩
  intro hne
  exact absurd rfl hne

lemma backOnce_restores (k : Nat) (s : NavState) (tb tb2 : ℚ)
    (hne : s.navigationStack ≠ []) (h : DrillInv k s) :
    (step (step s (.backStart tb)) (.backResolve tb2)).currentDepth = (snapTop s).depth
    ∧ (step (step s (.backStart tb)) (.backResolve tb2)).cameraTransition.toCameraZ =
        (snapTop s).cameraPositionZ
    ∧ (step (step s (.backStart tb)) (.backResolve tb2)).cameraTransition.toTargetZ =
        (snapTop s).cameraTargetZ := by
  obtain ⟨hph, hd, ht, hdep, hstack, hlay, _⟩ := h
  have hk : k ≠ 0 := by
    intro hk0
    rw [hk0] at hstack
    exact hne (List.length_eq_zero.mp hstack)
  have hguard : ¬(s.navigationStack.length = 0 ∨ s.galaxyLayers.length < 2) := by
    rw [hstack, hlay]
    omega
  have hsb : step (step s (.backStart tb)) (.backResolve tb2) =
      backResolve (backStart s tb) tb2 := rfl
  rw [hsb]
  unfold backStart
  rw [if_neg (by simp [hd, ht]), if_neg hguard]
  simp only [backResolve, startCameraTransition, queueLayerOpacityTransition_eq,
    clearSelection_eq, removeGalaxyLayer_eq, snapTop]
  simp

/-- Conclusion of the depth-arithmetic claim for the k = reqs.length + 1
consecutive successful drill-ins reqs ++ [r] from the loaded root state
s0: the active depth is -k * DEPTH_STEP, the camera transition of the
last drill targets that depth plus CAMERA_LAYER_OFFSET for the camera and
that depth for the orbit target, and one successful back restores the
depth and targets the camera transition exactly at the camera-z and
target-z recorded in the top (k-1-th) snapshot, whose depth is
-(k-1) * DEPTH_STEP. -/
def DepthSpec (s0 : NavState) (reqs : List DrillReq) (r : DrillReq)
    (tb tb2 : ℚ) : Prop :=
  (runDrills s0 (reqs ++ [r])).currentDepth =
      -((reqs.length : Int) + 1) * DEPTH_STEP
  ∧ (runDrills s0 (reqs ++ [r])).cameraTransition.toCameraZ =
      (((runDrills s0 (reqs ++ [r])).currentDepth : ℚ) + (CAMERA_LAYER_OFFSET : ℚ))
  ∧ (runDrills s0 (reqs ++ [r])).cameraTransition.toTargetZ =
      ((runDrills s0 (reqs ++ [r])).currentDepth : ℚ)
  ∧ (step (step (runDrills s0 (reqs ++ [r])) (.backStart tb))
        (.backResolve tb2)).currentDepth = (snapTop (runDrills s0 (reqs ++ [r]))).depth
  ∧ (snapTop (runDrills s0 (reqs ++ [r]))).depth = -(reqs.length : Int) * DEPTH_STEP
  ∧ (step (step (runDrills s0 (reqs ++ [r])) (.backStart tb))
        (.backResolve tb2)).cameraTransition.toCameraZ =
      (snapTop (runDrills s0 (reqs ++ [r]))).cameraPositionZ
  ∧ (step (step (runDrills s0 (reqs ++ [r])) (.backStart tb))
        (.backResolve tb2)).cameraTransition.toTargetZ =
      (snapTop (runDrills s0 (reqs ++ [r]))).cameraTargetZ

/-- C5: after k consecutive successful drill-ins from the loaded root the
active depth is -k * DEPTH_STEP, the camera transition of the k-th drill
moves the camera toward nextDepth + CAMERA_LAYER_OFFSET and the orbit
target toward nextDepth, and one successful back restores the depth to
the value recorded in the k-1-th snapshot (-(k-1) * DEPTH_STEP) and
starts a camera transition targeting exactly the snapshotted camera-z and
target-z. -/
theorem drill_depth_arithmetic_and_back_restore (field : String)
    (papers0 : List Paper) (dir0 : Nat → ℚ × ℚ × ℚ) (reqs : List DrillReq)
    (r : DrillReq) (tb tb2 : ℚ)
    (h : ∀ q ∈ reqs ++ [r], q.refs ≠ []) :
    DepthSpec (loadPapersOk field papers0 dir0) reqs r tb tb2 := by
  have hinit := drillInv_loadPapersOk field papers0 dir0
  have hinv := runDrills_inv reqs (loadPapersOk field papers0 dir0) 0
    (fun q hq => h q (by simp [hq])) hinit
  rw [Nat.zero_add] at hinv
  have hdep0 := hinv.2.2.2.1
  have hlast : runDrills (loadPapersOk field papers0 dir0) (reqs ++ [r]) =
      drillOnce (runDrills (loadPapersOk field papers0 dir0) reqs) r := by
    simp [runDrills]
  have hone := drillOnce_inv reqs.length _ r (h r (by simp)) hinv
  obtain ⟨hinv2, hcam, htar⟩ := hone
  obtain ⟨hph, hd, ht, hdep, hstack, hlay, hsnap⟩ := hinv2
  have hne : (drillOnce (runDrills (loadPapersOk field papers0 dir0) reqs) r).navigationStack ≠ [] := by
    intro hx
    rw [hx] at hstack
    simp at hstack
  have hback := backOnce_restores (reqs.length + 1) _ tb tb2 hne
    ⟨hph, hd, ht, hdep, hstack, hlay, hsnap⟩
  have hdepth2 := hsnap hne
  unfold DepthSpec
  rw [hlast]
  refine ⟨?_, ?_, ?_, hback.1, ?_, hback.2.1, hback.2.2⟩
  · rw [hdep]; push_cast; ring
  · rw [hcam, hdep, hdep0]; push_cast; ring
  · rw [htar, hdep, hdep0]; push_cast; ring
  · rw [hdepth2]; push_cast; ring

/-- Witness for C5: one drill from the root, then back. -/
theorem drill_depth_arithmetic_and_back_restore_witness :
    DepthSpec (loadPapersOk "physics" [paperA] sample0) []
      { paper := paperA, refs := [paperB], t1 := 0, t2 := 220, dir := sample0 }
      400 620 :=
  drill_depth_arithmetic_and_back_restore "physics" [paperA] sample0 []
    { paper := paperA, refs := [paperB], t1 := 0, t2 := 220, dir := sample0 }
    400 620 (by
      intro q hq
      simp at hq
      rw [hq]
      exact List.cons_ne_nil _ _)

/-
Claim C7: selection exclusivity.
-/

/-- A star whose current appearance equals its recorded base appearance
(the state resetStarAppearance restores). -/
def AtBase (st : Star) : Prop :=
  st.color = st.baseColor
  ∧ st.emissive = st.baseColor
  ∧ st.emissiveIntensity = st.baseEmissiveIntensity

/-- A star carrying the highlight delta of applyStarSelection: the
distinct emissive color and the base emissive intensity plus the fixed
0.6 increment. -/
def Highlighted (st : Star) : Prop :=
  st.emissive = 0xb8d9ff
  ∧ st.emissiveIntensity = st.baseEmissiveIntensity + 3/5

/-- At most one entity across all layers is highlighted: the selected
star, when there is one, carries the highlight appearance, and every
other star of the scene is at its base appearance. -/
def SelectionExclusive (s : NavState) : Prop :=
  ∀ i ∈ s.stars,
    (s.selectedStar = some i → Highlighted (s.starHeap i))
    ∧ (s.selectedStar ≠ some i → AtBase (s.starHeap i))

/-- True on the two click events. -/
def isClickEvent : NavEvent → Bool
  | .clickStar _ => true
  | .clickMiss => true
  | _ => false

lemma applyStarSelection_same (s : NavState) (i : Nat)
    (h : s.selectedStar = some i) :
    applyStarSelection s i = { s with selectedPaper := some ((s.starHeap i).paper) } := by
  simp [applyStarSelection, h]

lemma applyStarSelection_new (s : NavState) (i : Nat)
    (h : ¬ s.selectedStar = some i) :
    applyStarSelection s i =
      { s with
        starHeap := fun j =>
          if j = i then
            { resetHeap s s.selectedStar i with
              emissive := 0xb8d9ff
              emissiveIntensity := (resetHeap s s.selectedStar i).baseEmissiveIntensity + 3/5 }
          else resetHeap s s.selectedStar j
        selectedStar := some i
        selectedPaper := some ((resetHeap s s.selectedStar i).paper) } := by
  simp [applyStarSelection, h, resetStarAppearance_eq]

lemma atBase_resetHeap (s : NavState) (j0 : Nat) (hss : s.selectedStar = some j0) :
    AtBase (resetHeap s s.selectedStar j0) := by
  rw [hss]
  simp [resetHeap, AtBase]

lemma resetHeap_other (s : NavState) (o : Option Nat) (j : Nat)
    (h : o ≠ some j) : resetHeap s o j = s.starHeap j := by
  cases o with
  | none => rfl
  | some j0 =>
    have : j ≠ j0 := fun hx => h (by rw [hx])
    simp [resetHeap, this]

lemma atBase_resetHeap_any (s : NavState) (j : Nat)
    (h : s.selectedStar ≠ some j → AtBase (s.starHeap j)) :
    AtBase (resetHeap s s.selectedStar j) := by
  by_cases hss : s.selectedStar = some j
  · exact atBase_resetHeap s j hss
  · rw [resetHeap_other s _ j hss]
    exact h hss

lemma selectionExclusive_applyStarSelection (s : NavState) (i : Nat)
    (h : SelectionExclusive s) : SelectionExclusive (applyStarSelection s i) := by
  by_cases hsel : s.selectedStar = some i
  · rw [applyStarSelection_same s i hsel]
    intro j hj
    simp only at hj ⊢
    exact h j hj
  · rw [applyStarSelection_new s i hsel]
    intro j hj
    simp only at hj ⊢
    constructor
    · intro he
      have hji : i = j := by simpa using he
      subst hji
      simp only [if_pos rfl]
      exact ⟨rfl, rfl⟩
    · intro hne
      have hji : j ≠ i := fun hx => hne (by rw [hx])
      rw [if_neg hji]
      exact atBase_resetHeap_any s j (fun hx => (h j hj).2 hx)

lemma selectionExclusive_clearSelection (s : NavState)
    (h : SelectionExclusive s) : SelectionExclusive (clearSelection s) := by
  rw [clearSelection_eq]
  intro j hj
  simp only at hj ⊢
  refine ⟨by simp, fun _ => ?_⟩
  exact atBase_resetHeap_any s j (fun hx => (h j hj).2 hx)

lemma selectionExclusive_step (s : NavState) (e : NavEvent)
    (he : isClickEvent e = true) (h : SelectionExclusive s) :
    SelectionExclusive (step s e) := by
  cases e with
  | clickStar i =>
    show SelectionExclusive (if i ∈ s.stars then onClick s (some i) else s)
    split
    · unfold onClick
      split
      · exact h
      · exact selectionExclusive_applyStarSelection s i h
    · exact h
  | clickMiss =>
    show SelectionExclusive (onClick s none)
    unfold onClick
    split
    · exact h
    · exact selectionExclusive_clearSelection s h
  | drillStart now p => simp [isClickEvent] at he
  | drillResolve now o d => simp [isClickEvent] at he
  | backStart now => simp [isClickEvent] at he
  | backResolve now => simp [isClickEvent] at he
  | tick now => simp [isClickEvent] at he

lemma selectionExclusive_foldl (clicks : List NavEvent) :
    ∀ s : NavState, (∀ e ∈ clicks, isClickEvent e = true) →
      SelectionExclusive s → SelectionExclusive (clicks.foldl step s) := by
  induction clicks with
  | nil => intro s _ h; exact h
  | cons e rest ih =>
    intro s hall h
    exact ih _ (fun q hq => hall q (by simp [hq]))
      (selectionExclusive_step s e (hall e (by simp)) h)

lemma atBase_makeStar (c : LayerBuildCtx) (n : Nat) (p : Paper) :
    AtBase (makeStar c n p).1 := ⟨rfl, rfl, rfl⟩

lemma layerStarList_atBase (c : LayerBuildCtx) (papers : List Paper) :
    ∀ (n : Nat) (st : Star),
      st ∈ (layerStarList c papers n).map (fun e => e.1) → AtBase st := by
  induction papers with
  | nil => intro n st hst; simp [layerStarList] at hst
  | cons p rest ih =>
    intro n st hst
    simp only [layerStarList, List.map_cons, List.mem_cons] at hst
    rcases hst with hst | hst
    · rw [hst]; exact atBase_makeStar c n p
    · exact ih (n + 1) st hst

@[simp] lemma applyStarWrites_cons (p : Nat × Star) (rest : List (Nat × Star))
    (heap : Nat → Star) :
    applyStarWrites (p :: rest) heap =
      applyStarWrites rest (writeStar heap p.1 p.2) := rfl

lemma applyStarWrites_base (ws : List (Nat × Star)) :
    ∀ heap : Nat → Star, (∀ p ∈ ws, AtBase p.2) → ∀ i : Nat,
      (i ∈ ws.map Prod.fst → AtBase (applyStarWrites ws heap i))
      ∧ (i ∉ ws.map Prod.fst → applyStarWrites ws heap i = heap i) := by
  induction ws with
  | nil => intro heap _ i; exact ⟨by simp, fun _ => rfl⟩
  | cons p rest ih =>
    intro heap hb i
    have ihh := ih (writeStar heap p.1 p.2) (fun q hq => hb q (by simp [hq])) i
    constructor
    · intro hmem
      by_cases hr : i ∈ rest.map Prod.fst
      · exact ihh.1 hr
      · have hip : i = p.1 := by
          simp only [List.map_cons, List.mem_cons] at hmem
          rcases hmem with h1 | h2
          · exact h1
          · exact absurd h2 hr
        rw [applyStarWrites_cons, ihh.2 hr, writeStar, if_pos hip]
        exact hb p (by simp)
    · intro hmem
      simp only [List.map_cons, List.mem_cons] at hmem
      push_neg at hmem
      rw [applyStarWrites_cons, ihh.2 hmem.2, writeStar, if_neg hmem.1]

lemma createGalaxyLayer_stars (s : NavState) (papers : List Paper)
    (depth : Int) (pid : Option String) (op : ℚ) (dir : Nat → ℚ × ℚ × ℚ) :
    (createGalaxyLayer s papers depth pid op dir).1.stars =
      s.stars ++ (createGalaxyLayer s papers depth pid op dir).2.starIds := rfl

lemma createGalaxyLayer_heap_atBase (s : NavState) (papers : List Paper)
    (depth : Int) (pid : Option String) (op : ℚ) (dir : Nat → ℚ × ℚ × ℚ)
    (i : Nat) (hi : i ∈ (createGalaxyLayer s papers depth pid op dir).2.starIds) :
    AtBase ((createGalaxyLayer s papers depth pid op dir).1.starHeap i) := by
  simp only [createGalaxyLayer] at hi ⊢
  refine (applyStarWrites_base _ s.starHeap ?_ i).1 ?_
  · intro p hp
    have hmem := (List.of_mem_zip hp).2
    simp only [List.map_map] at hmem
    exact layerStarList_atBase _ papers 0 p.2 (by
      simpa using hmem)
  · rw [List.map_fst_zip]
    · exact hi
    · simp

lemma selectionExclusive_loadPapersOk (field : String) (papers : List Paper)
    (dir : Nat → ℚ × ℚ × ℚ) : SelectionExclusive (loadPapersOk field papers dir) := by
  intro i hi
  constructor
  · intro habs
    have : (loadPapersOk field papers dir).selectedStar = none := rfl
    rw [this] at habs
    cases habs
  · intro _
    have hstars : (loadPapersOk field papers dir).stars =
        (createGalaxyLayer (initState field) papers 0 (some "root") 1 dir).2.starIds := by
      rfl
    rw [hstars] at hi
    exact createGalaxyLayer_heap_atBase (initState field) papers 0 (some "root") 1 dir i hi

/-- C1-style compact conclusion for the re-click half of the claim. -/
def ReClickNoChange (s : NavState) (i : Nat) : Prop :=
  (step s (.clickStar i)).starHeap = s.starHeap
  ∧ (step s (.clickStar i)).selectedStar = s.selectedStar

/-- C7: after any sequence of click operations from the loaded root
state, at most one entity across all layers is highlighted: the selected
star carries the highlight delta (distinct emissive color, base intensity
plus the fixed increment) and every other star is at its recorded base
appearance, so clicking B while A is selected reverts A and highlights B
only, and clicking empty space reverts everything; and clicking the
already-selected entity changes no appearance and keeps the selection. -/
theorem selection_exclusive_highlight :
    (∀ (field : String) (papers : List Paper) (dir : Nat → ℚ × ℚ × ℚ)
        (clicks : List NavEvent), (∀ e ∈ clicks, isClickEvent e = true) →
        SelectionExclusive (clicks.foldl step (loadPapersOk field papers dir)))
    ∧ (∀ (s : NavState) (i : Nat), s.isTransitioning = false →
        s.selectedStar = some i → i ∈ s.stars → ReClickNoChange s i) := by
  constructor
  · intro field papers dir clicks hall
    exact selectionExclusive_foldl clicks _ hall
      (selectionExclusive_loadPapersOk field papers dir)
  · intro s i ht hsel hmem
    constructor
    · show (if i ∈ s.stars then onClick s (some i) else s).starHeap = s.starHeap
      rw [if_pos hmem]
      unfold onClick
      rw [if_neg (by simp [ht])]
      show (applyStarSelection s i).starHeap = s.starHeap
      rw [applyStarSelection_same s i hsel]
    · show (if i ∈ s.stars then onClick s (some i) else s).selectedStar = s.selectedStar
      rw [if_pos hmem]
      unfold onClick
      rw [if_neg (by simp [ht])]
      show (applyStarSelection s i).selectedStar = s.selectedStar
      rw [applyStarSelection_same s i hsel]

/-- The loaded one-paper root after clicking its star. -/
def clickedState : NavState :=
  step (loadPapersOk "physics" [paperA] sample0) (.clickStar 0)

/-- Witness for C7: two clicks on the loaded two-paper root, and a
re-click on the already selected star of clickedState. -/
theorem selection_exclusive_highlight_witness :
    SelectionExclusive ([NavEvent.clickStar 0, NavEvent.clickStar 1].foldl step
      (loadPapersOk "physics" [paperA, paperB] sample0))
    ∧ ReClickNoChange clickedState 0 :=
  ⟨selection_exclusive_highlight.1 "physics" [paperA, paperB] sample0
      [NavEvent.clickStar 0, NavEvent.clickStar 1] (by decide),
   selection_exclusive_highlight.2 clickedState 0 rfl rfl (by decide)⟩

/-
Claim C10: reference limit, silent drop of failed details, descending
sort.
-/

/-- Sorted in descending order of citation count. -/
def DescendingByCitations (l : List Paper) : Prop :=
  l.Pairwise (fun a b => b.cited_by_count ≤ a.cited_by_count)

/-- Conclusion of the reference-fetch claim: at most REFERENCE_LIMIT
identifiers are resolved into detail requests, the result is a
permutation of the normalized successful detail lookups (so each failed
detail request is silently dropped rather than failing the drill), and
the result is sorted in descending order of citation count. -/
def FetchSpec (p : Paper) (refs : Option (List (Option String)))
    (detail : String → Option Work) (m : Int → ℚ) : Prop :=
  (resolvedReferenceIds refs).length ≤ REFERENCE_LIMIT
  ∧ (fetchReferencePapers p refs detail m).Perm
      ((((resolvedReferenceIds refs).map detail).filterMap id).map
        (normalizeWorkToPaper m))
  ∧ DescendingByCitations (fetchReferencePapers p refs detail m)

/-- C10: for every drill-in reference fetch with a usable doi, at most
REFERENCE_LIMIT (35) referenced-work identifiers are resolved, every
failed per-reference detail request is dropped silently (the result is
exactly the normalized successes, reordered), and the resulting papers
are sorted in descending order of citation count. -/
theorem reference_fetch_limit_drop_sort (p : Paper)
    (refs : Option (List (Option String))) (detail : String → Option Work)
    (m : Int → ℚ) (h : jsTruthy p.doi ≠ none) : FetchSpec p refs detail m := by
  obtain ⟨v, hv⟩ := Option.ne_none_iff_exists'.mp h
  have hlimit : (resolvedReferenceIds refs).length ≤ REFERENCE_LIMIT := by
    cases refs with
    | none => simp [resolvedReferenceIds]
    | some urls =>
      simp only [resolvedReferenceIds]
      exact List.length_take_le _ _
  refine ⟨hlimit, ?_, ?_⟩
  · simp only [fetchReferencePapers, hv]
    by_cases hids : resolvedReferenceIds refs = []
    · simp [hids]
    · rw [if_neg hids]
      exact List.mergeSort_perm _ _
  · simp only [fetchReferencePapers, hv]
    by_cases hids : resolvedReferenceIds refs = []
    · simp [hids, DescendingByCitations]
    · rw [if_neg hids]
      have hs := @List.sorted_mergeSort Paper
        (fun a b : Paper => decide (b.cited_by_count ≤ a.cited_by_count))
        (fun a b c hab hbc => by
          simp only [decide_eq_true_eq] at hab hbc ⊢
          exact le_trans hbc hab)
        (fun a b => by
          simp only [Bool.or_eq_true, decide_eq_true_eq]
          exact Int.le_total _ _)
        ((((resolvedReferenceIds refs).map detail).filterMap id).map
          (normalizeWorkToPaper m))
      exact hs.imp (fun hab => by simpa using hab)

/-- A concrete detail payload. -/
def workC : Work :=
  { display_name := some "C", authorships := none, publication_year := some 1999,
    cited_by_count := some 7, doi := none, primary_topic := none, concepts := none }

/-- Witness for C10: two resolved identifiers, one failing detail
request. -/
theorem reference_fetch_limit_drop_sort_witness :
    FetchSpec paperA
      (some [some "https://openalex.org/W7", none, some "https://openalex.org/W3"])
      (fun id => if id = "W7" then some workC else none) (fun _ => 0) :=
  reference_fetch_limit_drop_sort paperA
    (some [some "https://openalex.org/W7", none, some "https://openalex.org/W3"])
    (fun id => if id = "W7" then some workC else none) (fun _ => 0) (by decide)

/-
Claims C8 and C9: restarting an opacity transition mid-flight, and tick
idempotence.
-/

/-- A single star at base appearance with opacity 0. -/
def starP : Star :=
  { color := 0x5da9e9, emissive := 0x5da9e9, emissiveIntensity := 2, opacity := 0,
    posX := 0, posY := 0, posZ := 0, radius := 1, baseColor := 0x5da9e9,
    baseEmissiveIntensity := 2, paper := paperA }

/-- A one-star layer over star 0. -/
def layerP : Layer :=
  { paperId := some "root", depth := 0, depthLevel := 0, starIds := [0],
    generatedStars := [] }

/-- A loaded state holding the one-star layer. -/
def midFadeState : NavState :=
  { initState "physics" with
    starHeap := fun _ => starP, stars := [0], galaxyLayers := [layerP],
    nextId := 1, statusLoading := false }

/-- The drill-style fade of the layer from opacity 0 toward 1, queued at
time 0 (as drillIntoReferences queues for its new layer). -/
def c8Queued : NavState :=
  queueLayerOpacityTransition midFadeState (some layerP) 1 LAYER_FADE_MS 0

/-- One render tick halfway through the fade. -/
def c8Mid : NavState := tickFrame 210 c8Queued

/-- A back-style fade of the same layer toward 0, queued mid-flight at
time 210 (as navigateBack queues for the outgoing layer). -/
def c8Requeued : NavState :=
  queueLayerOpacityTransition c8Mid (some layerP) 0 (PRE_ZOOM_MS + 120) 210

/-- The next render tick after the restart. -/
def c8After : NavState := tickFrame 300 c8Requeued

/-- C8: evaluation of the source at the failing input.  The new
transition does capture the current interpolated opacity 1/2 as its from
value (first conjunct, the half of the claim the code implements), but
the next tick does not interpolate from that captured value toward the
new target 0: the still-live older transition sits at a lower index of
the transitions array, so the descending-index loop makes it write last,
and the final opacity 311/343 is the old transition's interpolation
toward 1, not any value between 1/2 and 0; the claimed snap-free
interpolation toward the new target is violated until the old transition
expires. -/
theorem opacity_restart_overwritten_by_old_transition :
    c8Requeued.opacityTransitions.map (fun t => t.fromOpacities) = [[0], [1/2]]
    ∧ (c8After.starHeap 0).opacity = 311/343
    ∧ (c8After.starHeap 0).opacity ≠
        lerpQ (1/2) 0 (easeInOutCubic ((300 - 210) / (PRE_ZOOM_MS + 120))) := by
  refine ⟨?_, ?_, ?_⟩ <;>
    norm_num [c8After, c8Requeued, c8Mid, c8Queued, midFadeState, initState, starP,
      layerP, tickFrame, updateCameraTransition, updateOpacityTransitions,
      updateOpacityAux, applyOpacityTransition, applyOpacityWrites, transitionWrites,
      transitionProgress, setStarOpacity, queueLayerOpacityTransition, easeInOutCubic,
      clampQ, lerpQ, LAYER_FADE_MS, PRE_ZOOM_MS, min_def, max_def]

/-- The one-star layer fully visible. -/
def c9Base : NavState :=
  { midFadeState with starHeap := fun _ => { starP with opacity := 1 } }

/-- Drill-style fade of the outgoing layer toward 0.24, queued at 0. -/
def c9Fade : NavState :=
  queueLayerOpacityTransition c9Base (some layerP) (24/100) LAYER_FADE_MS 0

/-- One render tick during that fade. -/
def c9Mid : NavState := tickFrame 100 c9Fade

/-- Back-style fade of the same layer toward 1, queued at 100 while the
first fade is still live. -/
def c9Requeued : NavState :=
  queueLayerOpacityTransition c9Mid (some layerP) 1 (PRE_ZOOM_MS + 160) 100

/-- First tick at 430, past the end of the older fade. -/
def c9Once : NavState := step c9Requeued (.tick 430)

/-- Second tick at the same instant 430. -/
def c9Twice : NavState := step c9Once (.tick 430)

/-- C9 counterexample: at time 430 the older fade has just finished, so
the first tick lets it write its target 0.24 last (descending-index loop)
and then splices it out; a second tick with the same now value leaves
only the newer fade, whose interpolated value then wins: the per-entity
opacity after two ticks with the same now differs from the opacity after
one, refuting the claim as stated. -/
theorem tick_twice_same_now_differs :
    (c9Once.starHeap 0).opacity = 6/25
    ∧ (c9Twice.starHeap 0).opacity ≠ (c9Once.starHeap 0).opacity := by
  constructor <;>
    norm_num [c9Twice, c9Once, c9Requeued, c9Mid, c9Fade, c9Base, midFadeState,
      initState, starP, layerP, step, tickFrame, updateCameraTransition,
      updateOpacityTransitions, updateOpacityAux, applyOpacityTransition,
      applyOpacityWrites, transitionWrites, transitionProgress, setStarOpacity,
      queueLayerOpacityTransition, easeInOutCubic, clampQ, lerpQ, LAYER_FADE_MS,
      PRE_ZOOM_MS, min_def, max_def]

/-
Amended C9 machinery: pointwise characterization of the per-tick opacity
writes, commutation and idempotence on disjoint transitions.
-/

/-- Two opacity transitions targeting no common star. -/
def TransDisjoint (t u : OpacityTransition) : Prop :=
  ∀ i ∈ t.starIds, i ∉ u.starIds

/-- All live opacity transitions of a state pairwise target disjoint
star sets. -/
def DisjointTransitions (s : NavState) : Prop :=
  s.opacityTransitions.Pairwise TransDisjoint

/-- The last write to star i in a write list (the one that wins). -/
def lastWriteTo (W : List (Nat × ℚ)) (i : Nat) : Option ℚ :=
  W.foldl (fun acc q => if q.1 = i then some q.2 else acc) none

lemma lastWriteTo_foldl (i : Nat) (W : List (Nat × ℚ)) :
    ∀ acc : Option ℚ,
      W.foldl (fun a q => if q.1 = i then some q.2 else a) acc =
        match lastWriteTo W i with
        | some v => some v
        | none => acc := by
  induction W with
  | nil => intro acc; rfl
  | cons q rest ih =>
    intro acc
    rw [List.foldl_cons, ih]
    have h2 : lastWriteTo (q :: rest) i =
        match lastWriteTo rest i with
        | some v => some v
        | none => if q.1 = i then some q.2 else none := by
      rw [lastWriteTo, List.foldl_cons, ih]
    rw [h2]
    cases lastWriteTo rest i <;> by_cases hq : q.1 = i <;> simp [hq]

@[simp] lemma applyOpacityWrites_cons (q : Nat × ℚ) (rest : List (Nat × ℚ))
    (heap : Nat → Star) :
    applyOpacityWrites (q :: rest) heap =
      applyOpacityWrites rest (setStarOpacity heap q.1 q.2) := rfl

lemma applyOpacityWrites_apply (i : Nat) (W : List (Nat × ℚ)) :
    ∀ heap : Nat → Star,
      applyOpacityWrites W heap i =
        match lastWriteTo W i with
        | some v => { heap i with opacity := v }
        | none => heap i := by
  induction W with
  | nil => intro heap; rfl
  | cons q rest ih =>
    intro heap
    rw [applyOpacityWrites_cons, ih]
    have h2 : lastWriteTo (q :: rest) i =
        match lastWriteTo rest i with
        | some v => some v
        | none => if q.1 = i then some q.2 else none := by
      rw [lastWriteTo, List.foldl_cons, lastWriteTo_foldl]
    rw [h2]
    cases lastWriteTo rest i with
    | some v =>
      by_cases hq : i = q.1 <;> simp [setStarOpacity, hq]
    | none =>
      by_cases hq : q.1 = i
      · subst hq
        simp [setStarOpacity]
      · have hq2 : ¬ i = q.1 := fun hx => hq hx.symm
        simp [setStarOpacity, hq, hq2]

lemma lastWriteTo_none (i : Nat) (W : List (Nat × ℚ))
    (h : i ∉ W.map Prod.fst) : lastWriteTo W i = none := by
  induction W with
  | nil => rfl
  | cons q rest ih =>
    simp only [List.map_cons, List.mem_cons] at h
    push_neg at h
    rw [lastWriteTo, List.foldl_cons, lastWriteTo_foldl,
      ih (by simpa using h.2)]
    rw [if_neg (fun hx => h.1 hx.symm)]

lemma transitionWrites_fst (now : ℚ) (t : OpacityTransition) :
    ∀ q ∈ transitionWrites now t, q.1 ∈ t.starIds := by
  intro q hq
  simp only [transitionWrites, List.mem_map] at hq
  obtain ⟨p, hp, hq2⟩ := hq
  rw [← hq2]
  exact (List.of_mem_zip hp).1

lemma lastWriteTo_writes_none (now : ℚ) (t : OpacityTransition) (i : Nat)
    (hi : i ∉ t.starIds) : lastWriteTo (transitionWrites now t) i = none := by
  apply lastWriteTo_none
  intro hx
  simp only [List.mem_map] at hx
  obtain ⟨q, hq, hq2⟩ := hx
  rw [← hq2] at hi
  exact hi (transitionWrites_fst now t q hq)

lemma applyTr_apply_some (now : ℚ) (t : OpacityTransition) (heap : Nat → Star)
    (i : Nat) (v : ℚ) (h : lastWriteTo (transitionWrites now t) i = some v) :
    applyOpacityTransition now t heap i = { heap i with opacity := v } := by
  rw [applyOpacityTransition, applyOpacityWrites_apply, h]

lemma applyTr_apply_none (now : ℚ) (t : OpacityTransition) (heap : Nat → Star)
    (i : Nat) (h : lastWriteTo (transitionWrites now t) i = none) :
    applyOpacityTransition now t heap i = heap i := by
  rw [applyOpacityTransition, applyOpacityWrites_apply, h]

lemma applyTr_idem (now : ℚ) (t : OpacityTransition) (heap : Nat → Star) :
    applyOpacityTransition now t (applyOpacityTransition now t heap)
      = applyOpacityTransition now t heap := by
  funext i
  cases hl : lastWriteTo (transitionWrites now t) i with
  | some v =>
    rw [applyTr_apply_some now t _ i v hl, applyTr_apply_some now t heap i v hl]
  | none =>
    rw [applyTr_apply_none now t _ i hl]

lemma applyTr_comm (now : ℚ) (t u : OpacityTransition) (hd : TransDisjoint t u)
    (heap : Nat → Star) :
    applyOpacityTransition now t (applyOpacityTransition now u heap)
      = applyOpacityTransition now u (applyOpacityTransition now t heap) := by
  funext i
  by_cases hit : i ∈ t.starIds
  · have hu := lastWriteTo_writes_none now u i (hd i hit)
    rw [applyTr_apply_none now u (applyOpacityTransition now t heap) i hu]
    cases hl : lastWriteTo (transitionWrites now t) i with
    | some v =>
      rw [applyTr_apply_some now t (applyOpacityTransition now u heap) i v hl,
        applyTr_apply_none now u heap i hu,
        applyTr_apply_some now t heap i v hl]
    | none =>
      rw [applyTr_apply_none now t (applyOpacityTransition now u heap) i hl,
        applyTr_apply_none now u heap i hu,
        applyTr_apply_none now t heap i hl]
  · have ht := lastWriteTo_writes_none now t i hit
    rw [applyTr_apply_none now t (applyOpacityTransition now u heap) i ht]
    cases hl : lastWriteTo (transitionWrites now u) i with
    | some v =>
      rw [applyTr_apply_some now u heap i v hl,
        applyTr_apply_some now u (applyOpacityTransition now t heap) i v hl,
        applyTr_apply_none now t heap i ht]
    | none =>
      rw [applyTr_apply_none now u heap i hl,
        applyTr_apply_none now u (applyOpacityTransition now t heap) i hl,
        applyTr_apply_none now t heap i ht]

lemma foldr_applyTr_comm (now : ℚ) (t : OpacityTransition)
    (us : List OpacityTransition) :
    ∀ heap : Nat → Star, (∀ u ∈ us, TransDisjoint t u) →
      us.foldr (applyOpacityTransition now) (applyOpacityTransition now t heap)
        = applyOpacityTransition now t
            (us.foldr (applyOpacityTransition now) heap) := by
  induction us with
  | nil => intro heap _; rfl
  | cons u rest ih =>
    intro heap hall
    rw [List.foldr_cons, List.foldr_cons,
      ih heap (fun q hq => hall q (by simp [hq])),
      (applyTr_comm now t u (hall u (by simp)) _)]

lemma foldr_filter_applyTr (now : ℚ) (p : OpacityTransition → Bool)
    (ts : List OpacityTransition) :
    ∀ heap : Nat → Star, ts.Pairwise TransDisjoint →
      (ts.filter p).foldr (applyOpacityTransition now)
          (ts.foldr (applyOpacityTransition now) heap)
        = ts.foldr (applyOpacityTransition now) heap := by
  induction ts with
  | nil => intro heap _; rfl
  | cons t rest ih =>
    intro heap hp
    obtain ⟨hd, hrest⟩ := List.pairwise_cons.mp hp
    have hsub : ∀ u ∈ rest.filter p, TransDisjoint t u :=
      fun u hu => hd u (List.mem_of_mem_filter hu)
    rw [List.foldr_cons]
    by_cases hpt : p t = true
    · rw [List.filter_cons_of_pos hpt, List.foldr_cons,
        foldr_applyTr_comm now t (rest.filter p) _ hsub, ih heap hrest,
        applyTr_idem]
    · rw [List.filter_cons_of_neg (by simpa using hpt),
        foldr_applyTr_comm now t (rest.filter p) _ hsub, ih heap hrest]

lemma updateOpacityAux_eq (now : ℚ) (ts : List OpacityTransition) :
    ∀ heap : Nat → Star,
      updateOpacityAux now ts heap =
        (ts.filter (fun t => !decide (1 ≤ transitionProgress now t)),
         ts.foldr (applyOpacityTransition now) heap) := by
  induction ts with
  | nil => intro heap; rfl
  | cons t rest ih =>
    intro heap
    simp only [updateOpacityAux, ih, List.foldr_cons]
    by_cases hp : 1 ≤ transitionProgress now t
    · simp [hp, List.filter_cons]
    · simp [hp, List.filter_cons]

lemma updateOpacityTransitions_idem (now : ℚ) (s : NavState)
    (h : DisjointTransitions s) :
    updateOpacityTransitions now (updateOpacityTransitions now s)
      = updateOpacityTransitions now s := by
  unfold updateOpacityTransitions
  simp only [updateOpacityAux_eq]
  have h1 : (s.opacityTransitions.filter
        (fun t => !decide (1 ≤ transitionProgress now t))).filter
        (fun t => !decide (1 ≤ transitionProgress now t))
      = s.opacityTransitions.filter (fun t => !decide (1 ≤ transitionProgress now t)) := by
    rw [List.filter_filter]
    simp
  have h2 := foldr_filter_applyTr now
    (fun t => !decide (1 ≤ transitionProgress now t)) s.opacityTransitions
    s.starHeap h
  rw [h1, h2]

lemma updateCameraTransition_stable (now : ℚ) (s t : NavState)
    (hct : t.cameraTransition = (updateCameraTransition now s).cameraTransition)
    (hcz : t.cameraZ = (updateCameraTransition now s).cameraZ)
    (htz : t.targetZ = (updateCameraTransition now s).targetZ) :
    updateCameraTransition now t = t := by
  by_cases hact : s.cameraTransition.active = false
  · have hs : updateCameraTransition now s = s := by
      rw [updateCameraTransition, if_pos hact]
    rw [hs] at hct
    rw [updateCameraTransition, if_pos (by rw [hct]; exact hact)]
  · by_cases hp : (1 : ℚ) ≤ clampQ ((now - s.cameraTransition.startMs) /
        s.cameraTransition.durationMs) 0 1
    · have hs : (updateCameraTransition now s).cameraTransition.active = false := by
        simp only [updateCameraTransition, if_neg hact]
        rw [if_pos hp]
      rw [updateCameraTransition, if_pos (by rw [hct]; exact hs)]
    · have hs : updateCameraTransition now s =
          { s with
            cameraZ := lerpQ s.cameraTransition.fromCameraZ s.cameraTransition.toCameraZ
              (easeInOutCubic (clampQ ((now - s.cameraTransition.startMs) /
                s.cameraTransition.durationMs) 0 1))
            targetZ := lerpQ s.cameraTransition.fromTargetZ s.cameraTransition.toTargetZ
              (easeInOutCubic (clampQ ((now - s.cameraTransition.startMs) /
                s.cameraTransition.durationMs) 0 1)) } := by
        simp only [updateCameraTransition, if_neg hact]
        rw [if_neg hp]
      rw [hs] at hct hcz htz
      simp only at hct hcz htz
      rw [updateCameraTransition, if_neg (by rw [hct]; exact hact), if_neg (by rw [hct]; exact hp)]
      rw [hct]
      have hz : lerpQ s.cameraTransition.fromCameraZ s.cameraTransition.toCameraZ
          (easeInOutCubic (clampQ ((now - s.cameraTransition.startMs) /
            s.cameraTransition.durationMs) 0 1)) = t.cameraZ := hcz.symm
      have hw : lerpQ s.cameraTransition.fromTargetZ s.cameraTransition.toTargetZ
          (easeInOutCubic (clampQ ((now - s.cameraTransition.startMs) /
            s.cameraTransition.durationMs) 0 1)) = t.targetZ := htz.symm
      rw [hz, hw, ← hct]

/-- C9 amended: calling tick twice with the same now value yields exactly
the same full visual state (camera-z, camera-target-z, and every entity
opacity) as calling it once, provided the live opacity transitions
pairwise target disjoint entity sets; without that proviso the claim
fails, because a finished older transition aliasing the stars of a newer
one writes last on its final tick and is then spliced out, so the second
call can produce a different opacity (see the counterexample).  The
camera half of the claim needs no proviso and is contained in the full
state equality. -/
theorem tick_idempotent_when_disjoint (s : NavState) (now : ℚ)
    (h : DisjointTransitions s) :
    step (step s (.tick now)) (.tick now) = step s (.tick now) := by
  show tickFrame now (tickFrame now s) = tickFrame now s
  unfold tickFrame
  obtain ⟨b1, b2, b3, b4, b5, b6, b7, b8, b9, b10, b11, b12, b13⟩ :=
    updateOpacityTransitions_fields now (updateCameraTransition now s)
  have hstable := updateCameraTransition_stable now s
    (updateOpacityTransitions now (updateCameraTransition now s)) b9 b10 b11
  rw [hstable]
  apply updateOpacityTransitions_idem
  show (updateCameraTransition now s).opacityTransitions.Pairwise TransDisjoint
  obtain ⟨a1, a2, a3, a4, a5, a6, a7, a8, a9, a10, a11, a12⟩ :=
    updateCameraTransition_fields now s
  rw [a9]
  exact h

/-- Witness for the amended C9 at a concrete state with one live opacity
transition. -/
theorem tick_idempotent_when_disjoint_witness :
    step (step c9Fade (.tick 50)) (.tick 50) = step c9Fade (.tick 50) :=
  tick_idempotent_when_disjoint c9Fade 50 (by
    simp [DisjointTransitions, c9Fade, c9Base, midFadeState, initState, layerP,
      queueLayerOpacityTransition])

end CitationGalaxy
